import Mathlib

/-!
Verification of the open-webui OpenAI gateway (multi-provider catalog
aggregation, completion routing, Notion tool-call orchestration).

The Python code of `backend/open_webui/routers/openai.py`,
`backend/open_webui/utils/integrations/notion.py` and
`backend/open_webui/utils/openai_tools.py` is shallowly embedded below.
Python dictionaries are modelled as insertion-ordered association lists
over a universal value type `PyVal`; operations that can raise in Python
return `Except PyErr`.  External collaborators (the network, the
integration store, model metadata) are passed in as explicit parameters.
-/

set_option maxHeartbeats 1000000

namespace OpenWebUI

/-- A Python/JSON value: `None`, booleans, integers, strings, lists and
(string-keyed, insertion-ordered) dictionaries. -/
inductive PyVal where
  | none
  | bool (b : Bool)
  | int (n : Int)
  | str (s : String)
  | list (xs : List PyVal)
  | dict (kvs : List (String × PyVal))

/-- A Python dictionary: insertion-ordered association list. -/
abbrev PyDict := List (String × PyVal)

/-- A Python runtime error relevant to the embedded code. -/
inductive PyErr where
  | keyError (k : String)
  | indexError
  | attributeError (msg : String)
  | typeError (msg : String)
deriving DecidableEq

/-- `d[k]` as an `Option`: first binding of key `k`. -/
def dget (d : PyDict) (k : String) : Option PyVal :=
  (d.find? (fun p => p.1 == k)).map (fun p => p.2)

/-- `k in d` for a dictionary. -/
def dcontains (d : PyDict) (k : String) : Bool :=
  d.any (fun p => p.1 == k)

/-- `d[k] = v`: replace the binding in place when the key is present,
append it otherwise (Python dict update semantics, order preserving;
dictionary keys are unique, so replacing the first binding suffices). -/
def dset : PyDict → String → PyVal → PyDict
  | [], k, v => [(k, v)]
  | p :: tl, k, v => if p.1 == k then (k, v) :: tl else p :: dset tl k v

/-- `del d[k]`. -/
def ddel (d : PyDict) (k : String) : PyDict :=
  d.filter (fun p => p.1 != k)

/-- `d.get(k, default)`. -/
def dgetD (d : PyDict) (k : String) (v : PyVal) : PyVal :=
  (dget d k).getD v

/-- Python truthiness. -/
def pyTruthy : PyVal → Bool
  | .none => false
  | .bool b => b
  | .int n => n != 0
  | .str s => s != ""
  | .list xs => !xs.isEmpty
  | .dict d => !d.isEmpty

/-- `v == "s"` where the right-hand side is a string literal. -/
def pyEqStr (v : PyVal) (s : String) : Bool :=
  match v with
  | .str t => t == s
  | _ => false

/-- Does the second character list start with the first one? -/
def listStartsWith : List Char → List Char → Bool
  | [], _ => true
  | _ :: _, [] => false
  | a :: as, b :: bs => a == b && listStartsWith as bs

/-- Does `hay` contain `needle` as a contiguous sublist (Python `in` on
strings)? -/
def listContains (needle : List Char) : List Char → Bool
  | [] => needle.isEmpty
  | b :: bs => listStartsWith needle (b :: bs) || listContains needle bs

/-- Python `sub in s` on strings. -/
def pyIn (sub s : String) : Bool :=
  listContains sub.data s.data

/-- Python `s.strip()`. -/
def pyStrip (s : String) : String :=
  String.mk ((s.data.dropWhile Char.isWhitespace).reverse.dropWhile Char.isWhitespace).reverse

/-- Python `s.lower()` (ASCII, as the embedded code only compares ASCII). -/
def pyLower (s : String) : String :=
  String.mk (s.data.map Char.toLower)

/-- Python `s.startswith(pre)`. -/
def pyStartsWith (s pre : String) : Bool :=
  listStartsWith pre.data s.data

/-- Replace every (leftmost, non-overlapping) occurrence of `pat`. -/
def listReplaceF : Nat → List Char → List Char → List Char → List Char
  | 0, _, _, cs => cs
  | _ + 1, _, _, [] => []
  | f + 1, pat, repl, c :: cs =>
    if !pat.isEmpty && listStartsWith pat (c :: cs) then
      repl ++ listReplaceF f pat repl ((c :: cs).drop pat.length)
    else c :: listReplaceF f pat repl cs

/-- Python `s.replace(pat, repl)`. -/
def pyReplace (s pat repl : String) : String :=
  String.mk (listReplaceF (s.length + 1) pat.data repl.data s.data)

/-- Escape a string for JSON serialisation (quote, backslash and the
common control characters, as `json.dumps` does). -/
def jsonEscape (s : String) : String :=
  String.mk (s.data.flatMap (fun c =>
    if c == '"' then ['\\', '"']
    else if c == '\\' then ['\\', '\\']
    else if c == '\n' then ['\\', 'n']
    else if c == '\t' then ['\\', 't']
    else if c == '\r' then ['\\', 'r']
    else [c]))

/-- Fuel-indexed model of `json.dumps` (default separators). -/
def pyJsonDumpsF : Nat → PyVal → String
  | 0, _ => ""
  | _ + 1, .none => "null"
  | _ + 1, .bool true => "true"
  | _ + 1, .bool false => "false"
  | _ + 1, .int n => toString n
  | _ + 1, .str s => "\"" ++ jsonEscape s ++ "\""
  | fuel + 1, .list xs =>
      "[" ++ String.intercalate ", " (xs.map (pyJsonDumpsF fuel)) ++ "]"
  | fuel + 1, .dict d =>
      "\x7b" ++
        String.intercalate ", "
          (d.map (fun p => "\"" ++ jsonEscape p.1 ++ "\": " ++ pyJsonDumpsF fuel p.2)) ++
        "\x7d"

/-- `json.dumps`, with fuel ample for any value the gateway handles. -/
def pyJsonDumps (v : PyVal) : String :=
  pyJsonDumpsF 1000 v

/-- Drop leading JSON whitespace. -/
def skipWs (cs : List Char) : List Char :=
  cs.dropWhile (fun c => c.isWhitespace)

/-- Parse a JSON string literal body (after the opening quote), returning
the decoded string and the rest of the input. -/
def parseStringLit : List Char → Option (String × List Char)
  | [] => Option.none
  | '"' :: rest => some ("", rest)
  | '\\' :: c :: rest =>
      let decoded : Char :=
        if c == 'n' then '\n' else if c == 't' then '\t'
        else if c == 'r' then '\r' else c
      (parseStringLit rest).map (fun p => (String.mk (decoded :: p.1.data), p.2))
  | c :: rest =>
      (parseStringLit rest).map (fun p => (String.mk (c :: p.1.data), p.2))

/-- Parse a JSON integer literal. -/
def parseIntLit (cs : List Char) : Option (Int × List Char) :=
  let neg := cs.head? == some '-'
  let cs' := if neg then cs.tail else cs
  let digits := cs'.takeWhile (fun c => c.isDigit)
  let rest := cs'.dropWhile (fun c => c.isDigit)
  if digits.isEmpty then Option.none
  else
    let n : Nat := digits.foldl (fun acc c => acc * 10 + (c.toNat - 48)) 0
    some (if neg then -(n : Int) else (n : Int), rest)

mutual

/-- Fuel-indexed model of `json.loads`: parse one JSON value. -/
def parseValueF : Nat → List Char → Option (PyVal × List Char)
  | 0, _ => Option.none
  | fuel + 1, cs =>
    match skipWs cs with
    | 'n' :: 'u' :: 'l' :: 'l' :: rest => some (.none, rest)
    | 't' :: 'r' :: 'u' :: 'e' :: rest => some (.bool true, rest)
    | 'f' :: 'a' :: 'l' :: 's' :: 'e' :: rest => some (.bool false, rest)
    | '"' :: rest => (parseStringLit rest).map (fun p => (.str p.1, p.2))
    | '[' :: rest =>
        (match skipWs rest with
         | ']' :: rest' => some (.list [], rest')
         | _ => (parseItemsF fuel (skipWs rest)).map (fun p => (.list p.1, p.2)))
    | '\x7b' :: rest =>
        (match skipWs rest with
         | '\x7d' :: rest' => some (.dict [], rest')
         | _ => (parseMembersF fuel (skipWs rest)).map (fun p => (.dict p.1, p.2)))
    | cs' => parseIntLit cs' |>.map (fun p => (.int p.1, p.2))

/-- Parse the items of a JSON array up to and including the closing bracket. -/
def parseItemsF : Nat → List Char → Option (List PyVal × List Char)
  | 0, _ => Option.none
  | fuel + 1, cs =>
    match parseValueF fuel cs with
    | Option.none => Option.none
    | some (v, rest) =>
      match skipWs rest with
      | ',' :: rest' => (parseItemsF fuel rest').map (fun p => (v :: p.1, p.2))
      | ']' :: rest' => some ([v], rest')
      | _ => Option.none

/-- Parse the members of a JSON object up to and including the closing brace. -/
def parseMembersF : Nat → List Char → Option (PyDict × List Char)
  | 0, _ => Option.none
  | fuel + 1, cs =>
    match skipWs cs with
    | '"' :: rest =>
      (match parseStringLit rest with
       | Option.none => Option.none
       | some (k, rest') =>
         match skipWs rest' with
         | ':' :: rest'' =>
           (match parseValueF fuel rest'' with
            | Option.none => Option.none
            | some (v, rest3) =>
              match skipWs rest3 with
              | ',' :: rest4 => (parseMembersF fuel rest4).map (fun p => ((k, v) :: p.1, p.2))
              | '\x7d' :: rest4 => some ([(k, v)], rest4)
              | _ => Option.none)
         | _ => Option.none)
    | _ => Option.none

end

/-- Model of `json.loads`: succeeds only when the whole input is one JSON
value (possibly surrounded by whitespace). -/
def jsonLoads (s : String) : Option PyVal :=
  match parseValueF (s.length + 1) s.data with
  | some (v, rest) => if (skipWs rest).isEmpty then some v else Option.none
  | Option.none => Option.none

/-!
### Python attribute/subscript access helpers used by the embeddings
-/

/-- `v[k]`: key lookup, raising `KeyError`/`TypeError` as Python does. -/
def pyGet (v : PyVal) (k : String) : Except PyErr PyVal :=
  match v with
  | .dict d =>
    (match dget d k with
     | some w => .ok w
     | Option.none => .error (.keyError k))
  | _ => .error (.typeError "subscript")

/-- `v.get(k, dflt)`: raises `AttributeError` when `v` is not a dict. -/
def pyGetDflt (v : PyVal) (k : String) (dflt : PyVal) : Except PyErr PyVal :=
  match v with
  | .dict d => .ok (dgetD d k dflt)
  | _ => .error (.attributeError "get")

/-- `v.items()`: raises `AttributeError` when `v` is not a dict. -/
def pyItems (v : PyVal) : Except PyErr PyDict :=
  match v with
  | .dict d => .ok d
  | _ => .error (.attributeError "items")

/-- `for x in v`: lists yield elements, strings characters, dicts keys. -/
def pyIter (v : PyVal) : Except PyErr (List PyVal) :=
  match v with
  | .list xs => .ok xs
  | .str s => .ok (s.data.map (fun c => .str (String.mk [c])))
  | .dict d => .ok (d.map (fun p => .str p.1))
  | _ => .error (.typeError "not iterable")

/-- `acc += v` on strings: raises `TypeError` when `v` is not a string. -/
def pyStrAdd (acc : String) (v : PyVal) : Except PyErr String :=
  match v with
  | .str s => .ok (acc ++ s)
  | _ => .error (.typeError "can only concatenate str")

/-!
### `utils/integrations/notion.py`
-/

/-- Embedding of `get_notion_function_tools`: the five Notion tool
definitions appended to the request's tool list. -/
def get_notion_function_tools : List PyVal :=
  [ .dict
      [ ("type", .str "function"),
        ("function", .dict
          [ ("name", .str "search_notion"),
            ("description", .str "Search Notion for pages, databases, and other content"),
            ("parameters", .dict
              [ ("type", .str "object"),
                ("properties", .dict
                  [ ("query", .dict
                      [ ("type", .str "string"),
                        ("description", .str "The search query string") ]),
                    ("filter", .dict
                      [ ("type", .str "object"),
                        ("description", .str "Filter for specific types of Notion objects"),
                        ("properties", .dict
                          [ ("value", .dict
                              [ ("type", .str "string"),
                                ("description", .str "The type of objects to filter for (e.g. \x27page\x27, \x27database\x27)") ]),
                            ("property", .dict
                              [ ("type", .str "string"),
                                ("description", .str "The property to filter on (usually \x27object\x27)") ]) ]) ]),
                    ("sort", .dict
                      [ ("type", .str "object"),
                        ("description", .str "Sort the results"),
                        ("properties", .dict
                          [ ("direction", .dict
                              [ ("type", .str "string"),
                                ("description", .str "Sort direction (\x27ascending\x27 or \x27descending\x27)") ]),
                            ("timestamp", .dict
                              [ ("type", .str "string"),
                                ("description", .str "Which timestamp to sort by (e.g. \x27last_edited_time\x27)") ]) ]) ]) ]),
                ("required", .list [.str "query"]) ]) ]) ],
    .dict
      [ ("type", .str "function"),
        ("function", .dict
          [ ("name", .str "list_notion_databases"),
            ("description", .str "List all Notion databases the user has access to"),
            ("parameters", .dict
              [ ("type", .str "object"),
                ("properties", .dict []),
                ("required", .list []) ]) ]) ],
    .dict
      [ ("type", .str "function"),
        ("function", .dict
          [ ("name", .str "query_notion_database"),
            ("description", .str "Query a specific Notion database"),
            ("parameters", .dict
              [ ("type", .str "object"),
                ("properties", .dict
                  [ ("database_id", .dict
                      [ ("type", .str "string"),
                        ("description", .str "The ID of the database to query") ]),
                    ("filter", .dict
                      [ ("type", .str "object"),
                        ("description", .str "Filter conditions for the database query") ]),
                    ("sorts", .dict
                      [ ("type", .str "array"),
                        ("description", .str "Sort order for the database query"),
                        ("items", .dict
                          [ ("type", .str "object"),
                            ("properties", .dict
                              [ ("property", .dict
                                  [ ("type", .str "string"),
                                    ("description", .str "The property to sort by") ]),
                                ("direction", .dict
                                  [ ("type", .str "string"),
                                    ("description", .str "The sort direction (\x27ascending\x27 or \x27descending\x27)") ]) ]) ]) ]),
                    ("page_size", .dict
                      [ ("type", .str "integer"),
                        ("description", .str "Maximum number of results to return (max 100)") ]) ]),
                ("required", .list [.str "database_id"]) ]) ]) ],
    .dict
      [ ("type", .str "function"),
        ("function", .dict
          [ ("name", .str "create_notion_page"),
            ("description", .str "Create a new page in Notion"),
            ("parameters", .dict
              [ ("type", .str "object"),
                ("properties", .dict
                  [ ("parent", .dict
                      [ ("type", .str "object"),
                        ("description", .str "Parent resource where the page will be created"),
                        ("properties", .dict
                          [ ("type", .dict
                              [ ("type", .str "string"),
                                ("description", .str "The parent type (\x27database_id\x27 or \x27page_id\x27)") ]),
                            ("database_id", .dict
                              [ ("type", .str "string"),
                                ("description", .str "The ID of the database to create the page in") ]),
                            ("page_id", .dict
                              [ ("type", .str "string"),
                                ("description", .str "The ID of the page to create a subpage in") ]) ]),
                        ("required", .list [.str "type"]) ]),
                    ("properties", .dict
                      [ ("type", .str "object"),
                        ("description", .str "Page properties (varies by database schema)") ]),
                    ("children", .dict
                      [ ("type", .str "array"),
                        ("description", .str "Page content blocks"),
                        ("items", .dict [("type", .str "object")]) ]) ]),
                ("required", .list [.str "parent", .str "properties"]) ]) ]) ],
    .dict
      [ ("type", .str "function"),
        ("function", .dict
          [ ("name", .str "update_notion_page"),
            ("description", .str "Update an existing page in Notion"),
            ("parameters", .dict
              [ ("type", .str "object"),
                ("properties", .dict
                  [ ("page_id", .dict
                      [ ("type", .str "string"),
                        ("description", .str "The ID of the page to update") ]),
                    ("properties", .dict
                      [ ("type", .str "object"),
                        ("description", .str "Page properties to update (varies by database schema)") ]),
                    ("archived", .dict
                      [ ("type", .str "boolean"),
                        ("description", .str "Whether the page should be archived") ]) ]),
                ("required", .list [.str "page_id", .str "properties"]) ]) ]) ] ]

/-- Embedding of the argument-normalisation prelude of
`handle_notion_function_execution` (lines 209-228): string arguments are
stripped/parsed (parse failures degrade to an empty dict), and anything
that is not a dict afterwards becomes the empty dict. -/
def decode_notion_arguments (arguments : PyVal) : PyDict :=
  let parsed : PyVal :=
    match arguments with
    | .str s =>
      if pyStrip s == "\x7b\x7d" || pyStrip s == "" then .dict []
      else
        (match jsonLoads s with
         | some v => v
         | Option.none => .dict [])
    | v => v
  match parsed with
  | .dict d => d
  | _ => []

/-- Embedding of `handle_notion_function_execution`: map a function name
and raw arguments to a canonical `\x7baction, params\x7d` dictionary.
Total: malformed arguments resolve to the empty parameter dict. -/
def handle_notion_function_execution (function_name : String) (arguments : PyVal) : PyDict :=
  let args := decode_notion_arguments arguments
  if function_name == "search_notion" then
    [ ("action", .str "search"),
      ("params", .dict
        [ ("query", dgetD args "query" (.str "")),
          ("filter", dgetD args "filter" .none),
          ("sort", dgetD args "sort" .none) ]) ]
  else if function_name == "list_notion_databases" then
    [ ("action", .str "list_notion_databases"),
      ("params", .dict []) ]
  else if function_name == "query_notion_database" then
    [ ("action", .str "query_database"),
      ("params", .dict
        [ ("database_id", dgetD args "database_id" .none),
          ("filter", dgetD args "filter" .none),
          ("sorts", dgetD args "sorts" .none),
          ("page_size", dgetD args "page_size" (.int 10)) ]) ]
  else if function_name == "create_notion_page" then
    [ ("action", .str "create_page"),
      ("params", .dict
        [ ("parent", dgetD args "parent" .none),
          ("properties", dgetD args "properties" (.dict [])),
          ("children", dgetD args "children" (.list [])) ]) ]
  else if function_name == "update_notion_page" then
    [ ("action", .str "update_page"),
      ("params", .dict
        [ ("page_id", dgetD args "page_id" .none),
          ("properties", dgetD args "properties" (.dict [])),
          ("archived", dgetD args "archived" .none) ]) ]
  else
    [ ("action", .str "unknown"),
      ("params", .dict
        [ ("function_name", .str function_name),
          ("arguments", .dict args) ]) ]

/-- The repeated title-concatenation loop of
`format_notion_api_result_for_llm`: concatenate the `text.content` of the
items whose `type` is `text`. -/
def notionTitleConcat (titleItems : List PyVal) : Except PyErr String :=
  titleItems.foldlM
    (fun t ti => do
      let ty ← pyGetDflt ti "type" .none
      if pyEqStr ty "text" then do
        let txt ← pyGetDflt ti "text" (.dict [])
        let c ← pyGetDflt txt "content" (.str "")
        pyStrAdd t c
      else pure t)
    ""

/-- The `search_notion` part of the dispatch condition of
`format_notion_api_result_for_llm` (lines 320-323). -/
def notionSearchHasDatabase (result : PyVal) : Except PyErr Bool := do
  let r1 ← pyGetDflt result "results" .none
  if pyTruthy r1 then do
    let rs ← pyGetDflt result "results" (.list [])
    let items ← pyIter rs
    items.anyM (fun r => do
      let o ← pyGetDflt r "object" .none
      pure (pyEqStr o "database"))
  else pure false

/-- The database-list formatting branch of
`format_notion_api_result_for_llm` (lines 324-345). -/
def notionFormatDatabases (result : PyVal) : Except PyErr PyDict := do
  let resultsV ← pyGetDflt result "results" (.list [])
  let items ← pyIter resultsV
  let databases ← items.foldlM
    (fun acc item => do
      let obj ← pyGetDflt item "object" .none
      if pyEqStr obj "database" then do
        let titleV ← pyGetDflt item "title" (.list [])
        let titleItems ← pyIter titleV
        let title ← notionTitleConcat titleItems
        let idV ← pyGetDflt item "id" .none
        let urlV ← pyGetDflt item "url" .none
        let letV ← pyGetDflt item "last_edited_time" .none
        pure (acc ++
          [PyVal.dict
            [ ("id", idV),
              ("title", .str (if title == "" then "Untitled Database" else title)),
              ("url", urlV),
              ("last_edited_time", letV) ]])
      else pure acc)
    []
  pure
    [ ("status", .str "success"),
      ("databases", .list databases),
      ("count", .int databases.length) ]

/-- One property decoding step of the `query_notion_database` formatting
branch of `format_notion_api_result_for_llm` (lines 355-404). -/
def notionDecodeProp (properties : PyDict) (prop_name : String) (prop_value : PyVal) :
    Except PyErr PyDict := do
  let ptype ← pyGetDflt prop_value "type" .none
  if pyEqStr ptype "title" then do
    let tl ← pyGetDflt prop_value "title" (.list [])
    let titleItems ← pyIter tl
    let t ← notionTitleConcat titleItems
    pure (dset properties prop_name (.str t))
  else if pyEqStr ptype "rich_text" then do
    let tl ← pyGetDflt prop_value "rich_text" (.list [])
    let titleItems ← pyIter tl
    let t ← notionTitleConcat titleItems
    pure (dset properties prop_name (.str t))
  else if pyEqStr ptype "number" then do
    let n ← pyGetDflt prop_value "number" .none
    pure (dset properties prop_name n)
  else if pyEqStr ptype "select" then do
    let so ← pyGetDflt prop_value "select" (.dict [])
    if pyTruthy so then do
      let nm ← pyGetDflt so "name" .none
      pure (dset properties prop_name nm)
    else pure properties
  else if pyEqStr ptype "multi_select" then do
    let msV ← pyGetDflt prop_value "multi_select" (.list [])
    let opts ← pyIter msV
    let names ← opts.mapM (fun o => pyGetDflt o "name" .none)
    pure (dset properties prop_name (.list names))
  else if pyEqStr ptype "date" then do
    let dobj ← pyGetDflt prop_value "date" (.dict [])
    if pyTruthy dobj then do
      let s ← pyGetDflt dobj "start" .none
      let e ← pyGetDflt dobj "end" .none
      pure (dset properties prop_name (.dict [("start", s), ("end", e)]))
    else pure properties
  else if pyEqStr ptype "checkbox" then do
    let v ← pyGetDflt prop_value "checkbox" .none
    pure (dset properties prop_name v)
  else if pyEqStr ptype "url" then do
    let v ← pyGetDflt prop_value "url" .none
    pure (dset properties prop_name v)
  else if pyEqStr ptype "email" then do
    let v ← pyGetDflt prop_value "email" .none
    pure (dset properties prop_name v)
  else if pyEqStr ptype "phone_number" then do
    let v ← pyGetDflt prop_value "phone_number" .none
    pure (dset properties prop_name v)
  else pure properties

/-- The `query_notion_database` formatting branch of
`format_notion_api_result_for_llm` (lines 347-419). -/
def notionFormatQueryPages (result : PyVal) : Except PyErr PyDict := do
  let rsV ← pyGetDflt result "results" (.list [])
  let items ← pyIter rsV
  let pages ← items.foldlM
    (fun acc item => do
      let obj ← pyGetDflt item "object" .none
      if pyEqStr obj "page" then do
        let propsV ← pyGetDflt item "properties" (.dict [])
        let props ← pyItems propsV
        let properties ← props.foldlM (fun ps p => notionDecodeProp ps p.1 p.2) []
        let idV ← pyGetDflt item "id" .none
        let urlV ← pyGetDflt item "url" .none
        let letV ← pyGetDflt item "last_edited_time" .none
        pure (acc ++
          [PyVal.dict
            [ ("id", idV),
              ("url", urlV),
              ("properties", .dict properties),
              ("last_edited_time", letV) ]])
      else pure acc)
    []
  let hasMore ← pyGetDflt result "has_more" (.bool false)
  let nc ← pyGetDflt result "next_cursor" .none
  pure
    [ ("status", .str "success"),
      ("pages", .list pages),
      ("count", .int pages.length),
      ("has_more", hasMore),
      ("next_cursor", nc) ]

/-- The `create_notion_page`/`update_notion_page` formatting branch of
`format_notion_api_result_for_llm` (lines 421-443); `none` means the
branch fell through to the generic return. -/
def notionFormatPageResult (result : PyVal) : Except PyErr (Option PyDict) := do
  let obj ← pyGetDflt result "object" .none
  if pyEqStr obj "page" then do
    let propsV ← pyGetDflt result "properties" (.dict [])
    let props ← pyItems propsV
    let properties ← props.foldlM
      (fun ps p => do
        let ptype ← pyGetDflt p.2 "type" .none
        if pyEqStr ptype "title" then do
          let tl ← pyGetDflt p.2 "title" (.list [])
          let titleItems ← pyIter tl
          let t ← notionTitleConcat titleItems
          pure (dset ps p.1 (.str t))
        else pure ps)
      []
    let idV ← pyGetDflt result "id" .none
    let urlV ← pyGetDflt result "url" .none
    pure (some
      [ ("status", .str "success"),
        ("page", .dict [("id", idV), ("url", urlV), ("properties", .dict properties)]) ])
  else pure Option.none

/-- Embedding of `format_notion_api_result_for_llm`. -/
def format_notion_api_result_for_llm (result : PyVal) (function_name : String) :
    Except PyErr PyDict := do
  if (match result with | .dict rd => pyTruthy (dgetD rd "error" .none) | _ => false) then
    pure
      [ ("status", .str "error"),
        ("message",
          (match result with
           | .dict rd => dgetD rd "message" (.str "An error occurred with the Notion API")
           | _ => .none)),
        ("details", result) ]
  else if (match result with | .none => true | _ => false) then
    pure
      [ ("status", .str "error"),
        ("message", .str "No data was returned from the Notion API. This may be due to an issue with the function call processing."),
        ("help", .str "Try using the direct /api/v1/integrations/notion/databases endpoint to access your Notion databases directly.") ]
  else do
    let searchDb ←
      if function_name == "search_notion" then notionSearchHasDatabase result else pure false
    if function_name == "list_notion_databases" || (function_name == "search_notion" && searchDb) then
      notionFormatDatabases result
    else if function_name == "query_notion_database" then
      notionFormatQueryPages result
    else if function_name == "create_notion_page" || function_name == "update_notion_page" then do
      let r ← notionFormatPageResult result
      match r with
      | some d => pure d
      | Option.none => pure [("status", .str "success"), ("result", result)]
    else
      pure [("status", .str "success"), ("result", result)]

/-!
### `utils/openai_tools.py`: `execute_notion_tool`
-/

/-- `len(v)`: lists, strings and dicts have a length; anything else
raises `TypeError`. -/
def pyLen (v : PyVal) : Except PyErr Nat :=
  match v with
  | .list xs => .ok xs.length
  | .str s => .ok s.length
  | .dict d => .ok d.length
  | _ => .error (.typeError "has no len")

/-- Python `k in v` for a container value. -/
def pyHas (v : PyVal) (k : String) : Except PyErr Bool :=
  match v with
  | .dict d => .ok (dcontains d k)
  | .list xs => .ok (xs.any (fun x => pyEqStr x k))
  | .str s => .ok (pyIn k s)
  | _ => .error (.typeError "argument of type is not iterable")

/-- `sep.join(items)`: every item must be a string. -/
def pyJoin (sep : String) (items : List PyVal) : Except PyErr String := do
  let strs ← items.mapM
    (fun v => match v with
      | .str s => Except.ok s
      | _ => Except.error (.typeError "sequence item: expected str instance"))
  pure (String.intercalate sep strs)

/-- `str(v)` / f-string interpolation.  Exact for scalars; containers are
rendered JSON-style (an approximation of Python repr that no theorem
depends on). -/
def pyStrF (v : PyVal) : String :=
  match v with
  | .str s => s
  | .int n => toString n
  | .bool true => "True"
  | .bool false => "False"
  | .none => "None"
  | v => pyJsonDumpsF 1000 v

/-- `str(e)` for the modelled exceptions. -/
def pyErrStr : PyErr → String
  | .keyError k => "\x27" ++ k ++ "\x27"
  | .indexError => "list index out of range"
  | .attributeError m => m
  | .typeError m => m

/-- One outbound HTTP request to the Notion API. -/
structure NotionRequest where
  method : String
  url : String
  bearer : String
  body : PyVal

/-- The upstream's reply to a Notion API request. -/
structure NotionResponse where
  status : Nat
  text : String
  json : PyVal

/-- `dict.update`: merge the second dict into the first, overwriting. -/
def dupdate (d extra : PyDict) : PyDict :=
  extra.foldl (fun acc p => dset acc p.1 p.2) d

/-- The `search` branch of `execute_notion_tool` (lines 135-166). -/
def execute_search_action (tok : String) (params : PyVal)
    (net : NotionRequest → NotionResponse) : List NotionRequest × Except PyErr PyDict :=
  match (do
      let q ← pyGetDflt params "query" (.str "")
      let f ← pyGetDflt params "filter"
        (.dict [("value", .str "page"), ("property", .str "object")])
      let sortParam ← pyGetDflt params "sort" .none
      let data : PyDict := [("query", q), ("filter", f)]
      let data :=
        match sortParam with
        | .none =>
          dset data "sort"
            (.dict [("direction", .str "descending"), ("timestamp", .str "last_edited_time")])
        | s => dset data "sort" s
      pure data : Except PyErr PyDict) with
  | .error e => ([], .error e)
  | .ok data =>
    let req : NotionRequest :=
      ⟨"POST", "https://api.notion.com/v1/search", tok, .dict data⟩
    let resp := net req
    if resp.status != 200 then
      ([req], .ok [("error", .bool true), ("message", .str ("Notion API error: " ++ resp.text))])
    else
      ([req],
       (do
        let rs ← pyGetDflt resp.json "results" (.list [])
        let rs2 ← pyGetDflt resp.json "results" (.list [])
        let n ← pyLen rs2
        pure
          [ ("status", .str "success"),
            ("results", rs),
            ("count", .int n),
            ("message", .str ("Found " ++ toString n ++ " results matching your query.")) ]))

/-- The `list_databases` branch of `execute_notion_tool`
(lines 168-204). -/
def execute_list_databases_action (tok : String)
    (net : NotionRequest → NotionResponse) : List NotionRequest × Except PyErr PyDict :=
  let data : PyDict :=
    [("filter", .dict [("value", .str "database"), ("property", .str "object")])]
  let req : NotionRequest :=
    ⟨"POST", "https://api.notion.com/v1/search", tok, .dict data⟩
  let resp := net req
  if resp.status != 200 then
    ([req], .ok [("error", .bool true), ("message", .str ("Notion API error: " ++ resp.text))])
  else
    ([req],
     (do
      let rs ← pyGetDflt resp.json "results" (.list [])
      let items ← pyIter rs
      let databases ← items.foldlM
        (fun acc db => do
          let dbId ← pyGetDflt db "id" .none
          let titleObjects ← pyGetDflt db "title" (.list [])
          let tos ← pyIter titleObjects
          let withPlain ← tos.filterM (fun t => pyHas t "plain_text")
          let plains ← withPlain.mapM (fun t => pyGetDflt t "plain_text" (.str ""))
          let title ← pyJoin " " plains
          let title := if title == "" then "Untitled Database" else title
          let urlV ← pyGetDflt db "url" (.str "")
          pure (acc ++ [PyVal.dict [("id", dbId), ("title", .str title), ("url", urlV)]]))
        []
      pure
        [ ("status", .str "success"),
          ("databases", .list databases),
          ("count", .int databases.length),
          ("message", .str ("Found " ++ toString databases.length ++ " databases.")) ]))

/-- The `query_database` branch of `execute_notion_tool`
(lines 206-240). -/
def execute_query_database_action (tok : String) (params : PyVal)
    (net : NotionRequest → NotionResponse) : List NotionRequest × Except PyErr PyDict :=
  match (do
      let dbId ← pyGetDflt params "database_id" .none
      let fParam ← pyGetDflt params "filter" .none
      let sParam ← pyGetDflt params "sorts" .none
      pure (dbId, fParam, sParam) : Except PyErr (PyVal × PyVal × PyVal)) with
  | .error e => ([], .error e)
  | .ok (dbId, fParam, sParam) =>
    if !pyTruthy dbId then
      ([], .ok [("error", .bool true), ("message", .str "Database ID is required")])
    else
      let data : PyDict := []
      let data := if pyTruthy fParam then dset data "filter" fParam else data
      let data := if pyTruthy sParam then dset data "sorts" sParam else data
      let req : NotionRequest :=
        ⟨"POST", "https://api.notion.com/v1/databases/" ++ pyStrF dbId ++ "/query", tok,
          .dict data⟩
      let resp := net req
      if resp.status != 200 then
        ([req], .ok [("error", .bool true), ("message", .str ("Notion API error: " ++ resp.text))])
      else
        ([req],
         (do
          let rs ← pyGetDflt resp.json "results" (.list [])
          let rs2 ← pyGetDflt resp.json "results" (.list [])
          let n ← pyLen rs2
          pure
            [ ("status", .str "success"),
              ("results", rs),
              ("count", .int n),
              ("message", .str ("Found " ++ toString n ++ " items in database.")) ]))

/-- The `create_page` branch of `execute_notion_tool` (lines 242-311). -/
def execute_create_page_action (tok : String) (params : PyVal)
    (net : NotionRequest → NotionResponse) : List NotionRequest × Except PyErr PyDict :=
  match (do
      let dbId ← pyGetDflt params "database_id" .none
      let title ← pyGetDflt params "title" (.str "")
      let propertiesJson ← pyGetDflt params "properties_json" (.str "")
      let contentJson ← pyGetDflt params "content_json" (.str "")
      pure (dbId, title, propertiesJson, contentJson) :
    Except PyErr (PyVal × PyVal × PyVal × PyVal)) with
  | .error e => ([], .error e)
  | .ok (dbId, title, propertiesJson, contentJson) =>
    if !pyTruthy dbId then
      ([], .ok [("error", .bool true), ("message", .str "Database ID is required")])
    else
      let properties : PyDict :=
        [("title", .dict [("title", .list [.dict [("text", .dict [("content", title)])]])])]
      let propStep : Except (Except PyErr PyDict) PyDict :=
        if pyTruthy propertiesJson then
          let additional : Option PyVal :=
            match propertiesJson with
            | .str s => jsonLoads s
            | v => some v
          match additional with
          | Option.none =>
            .error (.ok
              [ ("error", .bool true),
                ("message", .str ("Invalid properties JSON: " ++ pyStrF propertiesJson)) ])
          | some (.dict extra) => .ok (dupdate properties extra)
          | some _ =>
            .error (.ok
              [ ("error", .bool true),
                ("message", .str "properties_json must be a valid JSON object") ])
        else .ok properties
      match propStep with
      | .error early => ([], early)
      | .ok properties =>
        let pageData : PyDict :=
          [ ("parent", .dict [("database_id", dbId)]),
            ("properties", .dict properties) ]
        let contentStep : Except (Except PyErr PyDict) PyDict :=
          if pyTruthy contentJson then
            let content : Option PyVal :=
              match contentJson with
              | .str s => jsonLoads s
              | v => some v
            match content with
            | Option.none =>
              .error (.ok
                [ ("error", .bool true),
                  ("message", .str ("Invalid content JSON: " ++ pyStrF contentJson)) ])
            | some (.list blocks) => .ok (dset pageData "children" (.list blocks))
            | some _ =>
              .error (.ok
                [ ("error", .bool true),
                  ("message", .str "content_json must be a valid JSON array of block objects") ])
          else .ok pageData
        match contentStep with
        | .error early => ([], early)
        | .ok pageData =>
          let req : NotionRequest :=
            ⟨"POST", "https://api.notion.com/v1/pages", tok, .dict pageData⟩
          let resp := net req
          if resp.status != 200 then
            ([req], .ok [("error", .bool true), ("message", .str ("Notion API error: " ++ resp.text))])
          else
            ([req],
             (do
              let idV ← pyGetDflt resp.json "id" .none
              let urlV ← pyGetDflt resp.json "url" .none
              pure
                [ ("status", .str "success"),
                  ("page_id", idV),
                  ("url", urlV),
                  ("message", .str "Page created successfully.") ]))

/-- The `update_page` branch of `execute_notion_tool` (lines 313-345). -/
def execute_update_page_action (tok : String) (params : PyVal)
    (net : NotionRequest → NotionResponse) : List NotionRequest × Except PyErr PyDict :=
  match (do
      let pageId ← pyGetDflt params "page_id" .none
      let properties ← pyGetDflt params "properties" .none
      let archived ← pyGetDflt params "archived" .none
      pure (pageId, properties, archived) : Except PyErr (PyVal × PyVal × PyVal)) with
  | .error e => ([], .error e)
  | .ok (pageId, properties, archived) =>
    if !pyTruthy pageId || !pyTruthy properties then
      ([], .ok [("error", .bool true), ("message", .str "Page ID and properties are required")])
    else
      let data : PyDict := [("properties", properties)]
      let data :=
        match archived with
        | .none => data
        | a => dset data "archived" a
      let req : NotionRequest :=
        ⟨"PATCH", "https://api.notion.com/v1/pages/" ++ pyStrF pageId, tok, .dict data⟩
      let resp := net req
      if resp.status != 200 then
        ([req], .ok [("error", .bool true), ("message", .str ("Notion API error: " ++ resp.text))])
      else
        ([req],
         (do
          let idV ← pyGetDflt resp.json "id" .none
          let urlV ← pyGetDflt resp.json "url" .none
          pure
            [ ("status", .str "success"),
              ("page_id", idV),
              ("url", urlV),
              ("message", .str "Page updated successfully.") ]))

/-- The body of `execute_notion_tool` inside its `try` (lines 119-348),
after the token override: dispatch on the action to the branch
definitions above.  Returns the requests issued together with the
result or the raised exception. -/
def execute_notion_tool_core (tok : String) (action params : PyVal)
    (net : NotionRequest → NotionResponse) :
    List NotionRequest × Except PyErr PyDict :=
  if pyEqStr action "search" || pyEqStr action "search_notion" then
    execute_search_action tok params net
  else if pyEqStr action "list_databases" || pyEqStr action "list_notion_databases" then
    execute_list_databases_action tok net
  else if pyEqStr action "query_database" then
    execute_query_database_action tok params net
  else if pyEqStr action "create_page" then
    execute_create_page_action tok params net
  else if pyEqStr action "update_page" then
    execute_update_page_action tok params net
  else
    ([], .ok [("error", .bool true), ("message", .str ("Unknown action: " ++ pyStrF action))])


/-- Embedding of `execute_notion_tool`: the `NOTION_ACCESS_TOKEN`
environment variable (when set) overrides the caller's access token; the
outer `try/except` converts any exception into an error dictionary.
Returns the Notion API requests issued alongside the result. -/
def execute_notion_tool (env_token : Option String) (action_data : PyDict)
    (access_token : String) (net : NotionRequest → NotionResponse) :
    List NotionRequest × PyDict :=
  let tok :=
    match env_token with
    | some t => t
    | Option.none => access_token
  let action := dgetD action_data "action" (.str "")
  let params := dgetD action_data "params" (.dict [])
  match execute_notion_tool_core tok action params net with
  | (reqs, .ok r) => (reqs, r)
  | (reqs, .error e) =>
    (reqs,
     [ ("error", .bool true),
       ("message", .str ("Error executing Notion action: " ++ pyErrStr e)) ])

/-!
### `openai_o1_o3_handler` and the surrounding token-limit normalisation
(`routers/openai.py`, lines 107-126 and 676-687)
-/

/-- Embedding of `openai_o1_o3_handler`.  Renames `max_tokens` to
`max_completion_tokens` and rewrites the first message's `system` role
(`user` for o1-mini/o1-preview, `developer` otherwise).  Errors mirror
the Python exceptions (`payload["messages"][0]["role"]` and
`payload["model"].lower()` subscripts/attributes).  The `max_tokens` →
`max_completion_tokens` rename (lines 111-114) is split out as
`o1_token_rename`. -/
def o1_token_rename (payload : PyDict) : PyDict :=
  if dcontains payload "max_tokens" then
    ddel (dset payload "max_completion_tokens" (dgetD payload "max_tokens" .none)) "max_tokens"
  else payload

/-- The reverse rename applied to non-o1/o3 models on non-first-party
URLs (lines 680-684). -/
def legacy_token_rename (payload : PyDict) : PyDict :=
  if dcontains payload "max_completion_tokens" then
    ddel (dset payload "max_tokens" (dgetD payload "max_completion_tokens" .none))
      "max_completion_tokens"
  else payload

/-- The final sweep (lines 686-687): when both fields are present, the
generic `max_tokens` is dropped. -/
def drop_generic_when_both (p : PyDict) : PyDict :=
  if dcontains p "max_tokens" && dcontains p "max_completion_tokens" then
    ddel p "max_tokens"
  else p

def openai_o1_o3_handler (payload : PyDict) : Except PyErr PyDict :=
  let p1 := o1_token_rename payload
  match dget p1 "messages" with
  | Option.none => .error (.keyError "messages")
  | some (.list []) => .error .indexError
  | some (.list (m0 :: rest)) =>
    (match m0 with
     | .dict md =>
       (match dget md "role" with
        | Option.none => .error (.keyError "role")
        | some r =>
          if pyEqStr r "system" then
            match dget p1 "model" with
            | Option.none => .error (.keyError "model")
            | some (.str m) =>
              let ml := pyLower m
              let newRole : String :=
                if pyStartsWith ml "o1-mini" || pyStartsWith ml "o1-preview" then "user"
                else "developer"
              .ok (dset p1 "messages" (.list (.dict (dset md "role" (.str newRole)) :: rest)))
            | some _ => .error (.attributeError "lower")
          else .ok p1)
     | _ => .error (.typeError "message subscript"))
  | some _ => .error (.typeError "messages subscript")

/-- Embedding of the token-limit normalisation around the handler
(`generate_chat_completion`, lines 676-687): o1/o3 models go through
`openai_o1_o3_handler`; other models on non-first-party URLs get
`max_completion_tokens` renamed back to `max_tokens`; finally, when both
fields are present, the generic `max_tokens` is dropped. -/
def normalize_token_limits (url : String) (payload : PyDict) : Except PyErr PyDict :=
  match dget payload "model" with
  | Option.none => .error (.keyError "model")
  | some (.str m) =>
    let ml := pyLower m
    let is_o1_o3 := pyStartsWith ml "o1" || pyStartsWith ml "o3-"
    let step : Except PyErr PyDict :=
      if is_o1_o3 then openai_o1_o3_handler payload
      else if !(pyIn "api.openai.com" url) then .ok (legacy_token_rename payload)
      else .ok payload
    match step with
    | .ok p => .ok (drop_generic_when_both p)
    | .error e => .error e
  | some _ => .error (.attributeError "lower")

/-!
### `routers/openai.py`: the Notion tool-injection block
(`generate_chat_completion`, lines 689-737)
-/

/-- A caller's integration record as returned by
`Integrations.get_user_active_integration` (a collaborator of the
gateway). -/
structure Integration where
  active : Bool
  access_token : String

/-- `v[-1]`: last element, with Python's `IndexError` on empty sequences. -/
def pyIndexLast (v : PyVal) : Except PyErr PyVal :=
  match v with
  | .list [] => .error .indexError
  | .list (x :: xs) => .ok ((x :: xs).getLast (by simp))
  | .str s =>
    (match s.data.getLast? with
     | some c => .ok (.str (String.mk [c]))
     | Option.none => .error .indexError)
  | _ => .error (.typeError "not subscriptable")

/-- The database-listing detection phrases (lines 709-713). -/
def notionDbPhrases : List String :=
  [ "what notion databases", "list notion database", "show notion database",
    "my notion database", "notion databases do i have", "notion databases i have",
    "access to notion database", "what databases do i have in notion" ]

/-- The search detection phrases (lines 721-724). -/
def notionSearchPhrases : List String :=
  [ "search notion", "find in notion", "look for in notion",
    "search my notion for", "find notion pages about" ]

/-- The general Notion detection phrases (lines 729-732). -/
def notionGeneralPhrases : List String :=
  [ "list notion", "show notion", "notion database", "notion databases",
    "my notion", "in notion", "from notion", "notion workspace" ]

/-- The forced `tool_choice` value for database listing (lines 716-719). -/
def forcedListDatabasesChoice : PyVal :=
  .dict
    [ ("type", .str "function"),
      ("function", .dict [("name", .str "list_notion_databases")]) ]

/-- The tool-extension step (lines 699-703): ensure a `tools` list and
extend it with the Notion tools. -/
def notionToolsStep (payload : PyDict) : Except PyErr PyDict :=
  let p := if dcontains payload "tools" then payload else dset payload "tools" (.list [])
  match dget p "tools" with
  | some (.list xs) => .ok (dset p "tools" (.list (xs ++ get_notion_function_tools)))
  | _ => .error (.attributeError "extend")

/-- The message-extraction step (line 706):
`payload.get("messages", [\x7b\x7d])[-1].get("content", "").lower()`. -/
def notionMessageStep (payload : PyDict) : Except PyErr String := do
  let last ← pyIndexLast (dgetD payload "messages" (.list [.dict []]))
  let content ← pyGetDflt last "content" (.str "")
  match content with
  | .str s => pure (pyLower s)
  | _ => .error (.attributeError "lower")

/-- Embedding of the integration-tools block of
`generate_chat_completion` (lines 689-737).  When the caller has an
active Notion integration, the Notion tools are appended to the
payload's tool list and `tool_choice` is set from phrase matching
against the final message; the enclosing `try/except` turns any internal
error into "keep whatever was already applied". -/
def add_notion_integration_tools (notion_integration : Option Integration)
    (payload : PyDict) : PyDict :=
  match notion_integration with
  | Option.none => payload
  | some i =>
    if !i.active then payload
    else
      match notionToolsStep payload with
      | .error _ => payload
      | .ok p1 =>
        match notionMessageStep p1 with
        | .error _ => p1
        | .ok message =>
          if notionDbPhrases.any (fun ph => pyIn ph message) then
            dset p1 "tool_choice" forcedListDatabasesChoice
          else if notionSearchPhrases.any (fun ph => pyIn ph message) then
            dset p1 "tool_choice" (.str "auto")
          else if notionGeneralPhrases.any (fun ph => pyIn ph message) then
            dset p1 "tool_choice" (.str "auto")
          else p1

/-!
### `routers/openai.py`: the completion router
(`generate_chat_completion`, lines 595-740)
-/

/-- The verified caller identity supplied by the auth collaborator. -/
structure UserCtx where
  id : String
  name : String
  email : String
  role : String

/-- Local model metadata as returned by `Models.get_model_by_id`
(a collaborator; only the fields the router reads). -/
structure ModelInfo where
  base_model_id : Option String
  user_id : String

/-- `xs[i]` for a Python list index held in a `PyVal`. -/
def pyListIndex (xs : List String) (v : PyVal) : Except PyErr String :=
  match v with
  | .int n =>
    if 0 ≤ n ∧ n < xs.length then .ok (xs.getD n.toNat "")
    else if -(xs.length : Int) ≤ n ∧ n < 0 then .ok (xs.getD (xs.length - (-n).toNat) "")
    else .error .indexError
  | _ => .error (.typeError "list indices must be integers")

/-- The `OPENAI_API_CONFIGS` lookup pattern
`configs.get(str(idx), configs.get(url, \x7b\x7d))` used throughout the
router (legacy URL-keyed support). -/
def api_config_for (configs : PyDict) (idx : Nat) (url : String) : PyVal :=
  match dget configs (toString idx) with
  | some v => v
  | Option.none => dgetD configs url (.dict [])

/-- The result of the completion router up to the first upstream call:
an HTTP rejection, an uncaught Python error, or the forwarded request
(provider index, base URL, payload dict and its serialised body). -/
inductive RouterOutcome where
  | reject (status : Nat) (detail : String)
  | pyfail (e : PyErr)
  | forward (idx : Nat) (url : String) (payload : PyDict) (body : String)

/-- Embedding of `generate_chat_completion` from entry to the first
upstream request (lines 595-740): access control, catalog lookup,
prefix stripping, pipeline user info, token-limit normalisation,
Notion tool injection and serialisation.  `openaiModels` is the
`request.app.state.OPENAI_MODELS` map as refreshed by `get_all_models`;
`applyParams`/`applySystemPrompt` stand for the external payload
transformations of `utils/payload.py` (not part of this repository). -/
def generate_chat_completion_route
    (bypassModelAccessControl bypassFilterArg : Bool)
    (user : UserCtx) (hasAccess : Bool)
    (model_info : Option ModelInfo)
    (applyParams applySystemPrompt : PyDict → PyDict)
    (openaiModels : PyDict)
    (urls keys : List String) (configs : PyDict)
    (notion_integration : Option Integration)
    (form_data : PyDict) : RouterOutcome :=
  let bypass_filter := bypassFilterArg || bypassModelAccessControl
  let payload := ddel form_data "metadata"
  let model_id := dget form_data "model"
  let step1 : Except RouterOutcome (PyDict × Option PyVal) :=
    match model_info with
    | some mi =>
      let pm :=
        match mi.base_model_id with
        | some b => (dset payload "model" (.str b), some (PyVal.str b))
        | Option.none => (payload, model_id)
      let p := applySystemPrompt (applyParams pm.1)
      if !bypass_filter && user.role == "user" &&
          !(user.id == mi.user_id || hasAccess) then
        .error (.reject 403 "Model not found")
      else .ok (p, pm.2)
    | Option.none =>
      if !bypass_filter && user.role != "admin" then
        .error (.reject 403 "Model not found")
      else .ok (payload, model_id)
  match step1 with
  | .error out => out
  | .ok (payload, model_id) =>
    let modelEntry : Option PyVal :=
      match model_id with
      | some (.str s) => dget openaiModels s
      | _ => Option.none
    match modelEntry with
    | Option.none => .reject 404 "Model not found"
    | some model =>
      match (do
          let idxV ← pyGet model "urlIdx"
          let url ← pyListIndex urls idxV
          let _key ← pyListIndex keys idxV
          let idx : Nat := (match idxV with | .int n => n.toNat | _ => 0)
          let api_config := api_config_for configs idx url
          let prefix_id ← pyGetDflt api_config "prefix_id" .none
          let payload ←
            if pyTruthy prefix_id then do
              let m ← pyGet (.dict payload) "model"
              match m with
              | .str s =>
                pure (dset payload "model" (.str (pyReplace s (pyStrF prefix_id ++ ".") "")))
              | _ => Except.error (.attributeError "replace")
            else pure payload
          let hasPipeline ← pyHas model "pipeline"
          let pipelineV ← if hasPipeline then pyGetDflt model "pipeline" .none else pure .none
          let payload :=
            if hasPipeline && pyTruthy pipelineV then
              dset payload "user"
                (.dict
                  [ ("name", .str user.name), ("id", .str user.id),
                    ("email", .str user.email), ("role", .str user.role) ])
            else payload
          let payload ← normalize_token_limits url payload
          let payload := add_notion_integration_tools notion_integration payload
          pure (idx, url, payload) : Except PyErr (Nat × String × PyDict)) with
      | .error e => .pyfail e
      | .ok (idx, url, payload) =>
        .forward idx url payload (pyJsonDumps (.dict payload))

/-!
### `routers/openai.py`: the buffered tool-call orchestration
(`generate_chat_completion`, lines 874-1027)
-/

/-- The recognised Notion function names (lines 900-904). -/
def notionFunctionNames : List String :=
  [ "list_notion_databases", "search_notion", "query_notion_database",
    "create_notion_page", "update_notion_page" ]

/-- The continuation request the orchestration would issue
(`session.post(url, json=..., headers=...)`, line 1020): target URL,
bearer token placed in the Authorization header, and JSON body. -/
structure ContinuationRequest where
  url : String
  bearer : String
  body : PyVal

/-- Embedding of the per-tool-call loop of the buffered path
(lines 894-966): each recognised function-type tool call yields exactly
one tool message — a formatted execution result when the re-fetched
integration is active, a structured "not connected" error otherwise, and
a "failed to execute" error when the inner `try` catches an exception.
Unrecognised calls yield nothing.  Errors outside the inner `try`
propagate. -/
def collect_function_responses (integ : Option Integration)
    (env_token : Option String) (net : NotionRequest → NotionResponse)
    (tool_calls : List PyVal) : Except PyErr (List PyVal) :=
  tool_calls.foldlM
    (fun acc tc => do
      let ty ← pyGetDflt tc "type" .none
      if pyEqStr ty "function" then do
        let fc ← pyGetDflt tc "function" (.dict [])
        let fnV ← pyGetDflt fc "name" (.str "")
        if notionFunctionNames.any (fun n => pyEqStr fnV n) then do
          let fn := (match fnV with | .str s => s | _ => "")
          let tcid ← pyGetDflt tc "id" .none
          let inner : Except PyErr PyVal := do
            match integ with
            | some i =>
              if i.active then do
                let raw ← pyGetDflt fc "arguments" (.str "\x7b\x7d")
                let action_data := handle_notion_function_execution fn raw
                let result := (execute_notion_tool env_token action_data i.access_token net).2
                let formatted ← format_notion_api_result_for_llm (.dict result) fn
                pure (PyVal.dict
                  [ ("tool_call_id", tcid), ("role", .str "tool"), ("name", .str fn),
                    ("content", .str (pyJsonDumps (.dict formatted))) ])
              else
                pure (PyVal.dict
                  [ ("tool_call_id", tcid), ("role", .str "tool"), ("name", .str fn),
                    ("content", .str (pyJsonDumps (.dict
                      [("error", .str "Notion integration not connected. Please connect Notion in the Integrations page.")]))) ])
            | Option.none =>
              pure (PyVal.dict
                [ ("tool_call_id", tcid), ("role", .str "tool"), ("name", .str fn),
                  ("content", .str (pyJsonDumps (.dict
                    [("error", .str "Notion integration not connected. Please connect Notion in the Integrations page.")]))) ])
          let entry : PyVal :=
            match inner with
            | .ok v => v
            | .error e =>
              .dict
                [ ("tool_call_id", tcid), ("role", .str "tool"), ("name", .str fn),
                  ("content", .str (pyJsonDumps (.dict
                    [("error", .str ("Failed to execute Notion function: " ++ pyErrStr e))]))) ]
          pure (acc ++ [entry])
        else pure acc
      else pure acc)
    []

/-- Embedding of the continuation construction and dispatch
(lines 969-1022).  `payload` is the router's local `payload` variable,
which at this point holds the `json.dumps` STRING produced at line 740;
the embedding mirrors the attribute accesses the code performs on it.
The bearer of the second request reflects the shadowing of `key` by the
parameter-copy loop at line 991. -/
def continue_with_responses (payload : PyVal) (apiKey url : String)
    (choice_message : PyVal) (function_responses : List PyVal) :
    Except PyErr ContinuationRequest := do
  let msgsV ← pyGetDflt payload "messages" (.list [])
  let msgs ← pyIter msgsV
  let toolMsgs ← function_responses.mapM
    (fun fr => do
      let tcid ← pyGetDflt fr "tool_call_id" .none
      let nm ← pyGetDflt fr "name" .none
      let ct ← pyGetDflt fr "content" .none
      pure (PyVal.dict
        [ ("role", .str "tool"), ("tool_call_id", tcid), ("name", nm), ("content", ct) ]))
  let new_messages := msgs ++ [choice_message] ++ toolMsgs
  let modelV ← pyGetDflt payload "model" .none
  let streamV ← pyGetDflt payload "stream" (.bool false)
  let frp : PyDict :=
    [("model", modelV), ("messages", .list new_messages), ("stream", streamV)]
  let items ← pyItems payload
  let frp := items.foldl
    (fun acc p =>
      if p.1 != "model" && p.1 != "messages" && p.1 != "stream" then dset acc p.1 p.2
      else acc)
    frp
  let bearer :=
    match items.getLast? with
    | some p => pyStrF p.2
    | Option.none => apiKey
  pure ⟨url, bearer, .dict frp⟩

/-- Embedding of the buffered response processing (lines 883-1027):
given the parsed 2xx upstream response, run the tool-call loop, build
and issue the continuation when there are tool results, and return the
second reply; any exception inside the `try` is caught at line 1025 and
the original response is returned.  The result pairs the value returned
to the caller with the list of continuation requests actually issued. -/
def process_buffered_response (payload : PyVal) (apiKey url : String)
    (integ : Option Integration) (env_token : Option String)
    (net : NotionRequest → NotionResponse)
    (upstream2 : ContinuationRequest → Nat × PyVal)
    (response_data : PyVal) : PyVal × List ContinuationRequest :=
  match (do
      let hasChoices ← pyHas response_data "choices"
      if hasChoices then do
        let choicesV ← pyGet response_data "choices"
        let n ← pyLen choicesV
        if n > 0 then do
          let choice ←
            (match choicesV with
             | .list (c :: _) => Except.ok c
             | .list [] => Except.error PyErr.indexError
             | _ => Except.error (PyErr.typeError "not subscriptable"))
          let hasMessage ← pyHas choice "message"
          if hasMessage then do
            let message ← pyGet choice "message"
            let hasToolCalls ← pyHas message "tool_calls"
            if hasToolCalls then do
              let toolCallsV ← pyGet message "tool_calls"
              let tool_calls ← pyIter toolCallsV
              let function_responses ← collect_function_responses integ env_token net tool_calls
              if !function_responses.isEmpty then do
                let req ← continue_with_responses payload apiKey url message function_responses
                let sr := upstream2 req
                if 400 ≤ sr.1 then Except.error (PyErr.typeError "raise_for_status")
                else pure (sr.2, [req])
              else pure (response_data, ([] : List ContinuationRequest))
            else pure (response_data, [])
          else pure (response_data, [])
        else pure (response_data, [])
      else pure (response_data, [])
      : Except PyErr (PyVal × List ContinuationRequest)) with
  | .ok r => r
  | .error _ => (response_data, [])

/-!
### `routers/openai.py`: catalog aggregation
(`send_get_request`, `get_all_models_responses`, `get_all_models`,
lines 70-94 and 283-444)

`send_get_request` wraps the network call in a catch-all `try/except`
and returns `None` on any failure, so one provider's catalog fetch is
modelled as `net : Nat → Option PyVal` — `Option.none` for a fetch that
errored or timed out, `some v` for the parsed JSON reply.
-/

/-- The enabled/URL/key/per-provider-config state read by the
aggregator (`request.app.state.config`). -/
structure OpenAIConfig where
  enable_openai_api : Bool
  urls : List String
  keys : List String
  configs : PyDict

/-- Python `enumerate`. -/
def enumFromN (i : Nat) : List α → List (Nat × α)
  | [] => []
  | x :: xs => (i, x) :: enumFromN (i + 1) xs

/-- `enumerate(xs)`. -/
def pyEnumerate (xs : List α) : List (Nat × α) :=
  enumFromN 0 xs

/-- The key-list fixup of `get_all_models_responses` (lines 287-298):
truncate extra keys, pad missing ones with empty strings. -/
def fixup_keys (urls keys : List String) : List String :=
  if keys.length > urls.length then keys.take urls.length
  else keys ++ List.replicate (urls.length - keys.length) ""

/-- One provider's task in the fan-out (lines 301-351): fetch the
model list, synthesize it from the configured `model_ids` allow-list,
or skip a disabled provider. -/
def provider_task (configs : PyDict) (net : Nat → Option PyVal) (idx : Nat)
    (url : String) : Except PyErr (Option PyVal) :=
  if !(dcontains configs (toString idx)) && !(dcontains configs url) then .ok (net idx)
  else do
    let api_config := api_config_for configs idx url
    let enable ← pyGetDflt api_config "enable" (.bool true)
    let model_ids ← pyGetDflt api_config "model_ids" (.list [])
    if pyTruthy enable then do
      let n ← pyLen model_ids
      if n == 0 then pure (net idx)
      else do
        let ids ← pyIter model_ids
        pure (some (.dict
          [ ("object", .str "list"),
            ("data", .list (ids.map (fun mid => .dict
              [ ("id", mid), ("name", mid), ("owned_by", .str "openai"),
                ("openai", .dict [("id", mid)]), ("urlIdx", .int idx) ]))) ]))
    else pure Option.none

/-- `model["id"] = f"\x7bprefix_id\x7d.\x7bmodel[\x27id\x27]\x7d"`
(line 371). -/
def prefixModel (prefix_id : PyVal) (model : PyVal) : Except PyErr PyVal := do
  let idV ← pyGet model "id"
  match model with
  | .dict md => pure (.dict (dset md "id" (.str (pyStrF prefix_id ++ "." ++ pyStrF idV))))
  | _ => .error (.typeError "not subscriptable")

/-- The id-prefixing pass over one provider's response (lines 355-371). -/
def apply_prefix_id (configs : PyDict) (urls : List String) (idx : Nat)
    (resp : Option PyVal) : Except PyErr (Option PyVal) :=
  match resp with
  | Option.none => .ok Option.none
  | some r =>
    if !pyTruthy r then .ok (some r)
    else do
      let url := urls.getD idx ""
      let api_config := api_config_for configs idx url
      let prefix_id ← pyGetDflt api_config "prefix_id" .none
      if pyTruthy prefix_id then
        match r with
        | .list xs => do
          let xs' ← xs.mapM (prefixModel prefix_id)
          pure (some (.list xs'))
        | .dict rd => do
          let dataV := dgetD rd "data" (.list [])
          let items ← pyIter dataV
          let items' ← items.mapM (prefixModel prefix_id)
          (match dget rd "data" with
           | some (.list _) => pure (some (.dict (dset rd "data" (.list items'))))
           | _ => pure (some r))
        | other => do
          let _ ← pyGetDflt other "data" (.list [])
          pure (some r)
      else pure (some r)

/-- Embedding of `get_all_models_responses` (lines 283-374): the
per-provider fan-out followed by the prefixing pass.  The key-list
fixup only affects which key each request carries, not the responses,
but is applied for fidelity. -/
def get_all_models_responses (cfg : OpenAIConfig) (net : Nat → Option PyVal) :
    Except PyErr (List (Option PyVal)) := do
  if !cfg.enable_openai_api then pure []
  else do
    let _keys := fixup_keys cfg.urls cfg.keys
    let tasks ← (pyEnumerate cfg.urls).mapM (fun p => provider_task cfg.configs net p.1 p.2)
    (pyEnumerate tasks).mapM (fun p => apply_prefix_id cfg.configs cfg.urls p.1 p.2)

/-- Embedding of `extract_data` (lines 399-404). -/
def extract_data (response : Option PyVal) : Except PyErr (Option PyVal) :=
  match response with
  | Option.none => .ok Option.none
  | some r => do
    let c1 ← if pyTruthy r then pyHas r "data" else pure false
    if c1 then do
      let d ← pyGet r "data"
      pure (some d)
    else
      match r with
      | .list _ => pure (some r)
      | _ => pure Option.none

/-- The non-chat model families filtered out for the first-party URL
(lines 426-433). -/
def openaiDenylist : List String :=
  ["babbage", "dall-e", "davinci", "embedding", "tts", "whisper"]

/-- One merged catalog entry (lines 414-435): spread the raw model,
then set `name`, `owned_by`, `openai` and `urlIdx`; `none` when the
model is filtered out by the first-party denylist. -/
def merge_entry (urls : List String) (idx : Nat) (model : PyVal) :
    Except PyErr (Option PyVal) := do
  let url := urls.getD idx ""
  let build : Except PyErr (Option PyVal) := do
    match model with
    | .dict md => do
      let idV ← pyGet model "id"
      let nameV := dgetD md "name" idV
      pure (some (.dict (dupdate md
        [ ("name", nameV), ("owned_by", .str "openai"),
          ("openai", .dict md), ("urlIdx", .int idx) ])))
    | _ => .error (.typeError "argument after ** must be a mapping")
  if pyIn "api.openai.com" url then do
    let idV ← pyGet model "id"
    match idV with
    | .str s =>
      if openaiDenylist.any (fun n => pyIn n s) then pure Option.none
      else build
    | _ => .error (.typeError "argument of type is not iterable")
  else build

/-- The list of merged entries contributed by one provider's extracted
model list (the body of the `for idx, models in enumerate(...)` loop of
`merge_models_lists`): nothing when the list carries an "error" marker,
the filtered merged entries otherwise. -/
def merge_entries (urls : List String) (idx : Nat) (models : PyVal) :
    Except PyErr (List PyVal) := do
  let hasError ← pyHas models "error"
  if hasError then pure []
  else do
    let items ← pyIter models
    items.foldlM
      (fun acc m => do
        let e ← merge_entry urls idx m
        match e with
        | some v => pure (acc ++ [v])
        | Option.none => pure acc)
      []

/-- One step of the enumerate loop of `merge_models_lists`. -/
def merge_step (urls : List String) (merged : List PyVal) (p : Nat × Option PyVal) :
    Except PyErr (List PyVal) :=
  match p.2 with
  | Option.none => pure merged
  | some models => do
    let es ← merge_entries urls p.1 models
    pure (merged ++ es)

/-- Embedding of `merge_models_lists` (lines 406-438). -/
def merge_models_lists (urls : List String) (lists : List (Option PyVal)) :
    Except PyErr (List PyVal) :=
  (pyEnumerate lists).foldlM (merge_step urls) []

/-- The `OPENAI_MODELS` republication
(`\x7bmodel["id"]: model for model in models["data"]\x7d`, line 443):
a dict comprehension, so a later entry with the same id overwrites an
earlier one.  Ids are taken to be strings (the map is string-keyed). -/
def build_openai_models_map (merged : List PyVal) : Except PyErr PyDict :=
  merged.foldlM
    (fun acc m => do
      let idV ← pyGet m "id"
      match idV with
      | .str s => pure (dset acc s m)
      | _ => .error (.typeError "unhashable model id in this embedding"))
    []

/-- Embedding of `get_all_models` (lines 390-444): returns the
`\x7b"data": [...]\x7d` payload and, when the API is enabled, the
republished `OPENAI_MODELS` routing map (`Option.none` mirrors the early
return that leaves the previous map in place). -/
def get_all_models (cfg : OpenAIConfig) (net : Nat → Option PyVal) :
    Except PyErr (PyVal × Option PyDict) := do
  if !cfg.enable_openai_api then pure (.dict [("data", .list [])], Option.none)
  else do
    let responses ← get_all_models_responses cfg net
    let datas ← responses.mapM extract_data
    let merged ← merge_models_lists cfg.urls datas
    let map ← build_openai_models_map merged
    pure (.dict [("data", .list merged)], some map)

/-- The complete contribution of one provider to the merged catalog:
task, prefixing, extraction and merge, composed.  Used to state that the
aggregate is the concatenation of per-provider contributions, each
depending only on that provider's own response. -/
def provider_contribution (cfg : OpenAIConfig) (idx : Nat) (url : String)
    (resp : Option PyVal) : Except PyErr (List PyVal) := do
  let task ← provider_task cfg.configs (fun _ => resp) idx url
  let prefixed ← apply_prefix_id cfg.configs cfg.urls idx task
  let data ← extract_data prefixed
  match data with
  | Option.none => pure []
  | some models => merge_entries cfg.urls idx models

/-!
### Spec-side predicates and concrete fixtures used by the theorems
-/

/-- A well-formed `\x7baction, params\x7d` mapping: a recognised action
string and a parameter dictionary. -/
def isWellFormedActionData (d : PyDict) : Bool :=
  match dget d "action", dget d "params" with
  | some (.str a), some (.dict _) => a != "unknown"
  | _, _ => false

/-- The model id the router looks up in `OPENAI_MODELS`: the requested
id, overridden by the locally registered base model when present. -/
def effective_model_id (mi : Option ModelInfo) (fd : PyDict) : Option PyVal :=
  match mi with
  | some m =>
    (match m.base_model_id with
     | some b => some (.str b)
     | Option.none => dget fd "model")
  | Option.none => dget fd "model"

/-- A well-formed raw model object: a dictionary whose `id` is a string. -/
def wfModel (m : PyVal) : Bool :=
  match m with
  | .dict md =>
    (match dget md "id" with
     | some (.str _) => true
     | _ => false)
  | _ => false

/-- A well-formed provider reply body: a dictionary whose `data` (when
present) is a list of well-formed models, or a bare list of them. -/
def wfRespV (v : PyVal) : Bool :=
  match v with
  | .dict d =>
    (match dget d "data" with
     | some (.list ms) => ms.all wfModel
     | some _ => false
     | Option.none => true)
  | .list ms => ms.all wfModel
  | _ => false

/-- A provider fetch outcome is well formed when it failed (`none`) or
returned a well-formed body. -/
def wfResp (o : Option PyVal) : Bool :=
  match o with
  | Option.none => true
  | some v => wfRespV v

/-- Well-formed admin-entered provider configs: every config is a
dictionary whose `model_ids` (when present) is a list of strings and
whose `prefix_id` (when present) is `None` or a string. -/
def wfConfig (v : PyVal) : Bool :=
  match v with
  | .dict d =>
    (match dget d "model_ids" with
     | some (.list ms) => ms.all (fun m => match m with | .str _ => true | _ => false)
     | some _ => false
     | Option.none => true) &&
    (match dget d "prefix_id" with
     | some (.str _) => true
     | some .none => true
     | Option.none => true
     | _ => false)
  | _ => false

/-- Well-formedness of the whole `OPENAI_API_CONFIGS` dictionary. -/
def wfConfigs (cd : PyDict) : Bool :=
  cd.all (fun p => wfConfig p.2)

/-- Whether a provider's task actually performs a catalog fetch
(it is configured neither with an allow-list nor as disabled): its task
against a failing network yields `None`. -/
def provider_uses_network (configs : PyDict) (idx : Nat) (url : String) : Bool :=
  match provider_task configs (fun _ => Option.none) idx url with
  | .ok Option.none => true
  | _ => false

/-- The merged catalog entry produced from a raw model dictionary (the
spread-plus-overrides literal of lines 414-419), as a total function:
used to characterise the merge on well-formed inputs. -/
def merged_model (idx : Nat) (m : PyVal) : PyVal :=
  match m with
  | .dict md =>
    .dict (dupdate md
      [ ("name", dgetD md "name" (dgetD md "id" .none)),
        ("owned_by", .str "openai"),
        ("openai", .dict md),
        ("urlIdx", .int idx) ])
  | v => v

/-- The string id of a catalog entry, when it has one. -/
def idStr (m : PyVal) : Option String :=
  match m with
  | .dict md =>
    (match dget md "id" with
     | some (.str s) => some s
     | _ => Option.none)
  | _ => Option.none

/-- `idStr m = some k`, as a Bool. -/
def idIs (k : String) (m : PyVal) : Bool :=
  match idStr m with
  | some s => s == k
  | Option.none => false

/-- The last element of a list satisfying a predicate:
the entry that survives in a dict comprehension keyed by that
predicate (a later binding overwrites an earlier one). -/
def lastWith (p : PyVal → Bool) : List PyVal → Option PyVal
  | [] => Option.none
  | x :: xs =>
    match lastWith p xs with
    | some y => some y
    | Option.none => if p x then some x else Option.none

/-- Fixture: a buffered tool call for `list_notion_databases`. -/
def fixToolCall : PyVal :=
  .dict
    [ ("id", .str "call_1"), ("type", .str "function"),
      ("function", .dict [("name", .str "list_notion_databases"), ("arguments", .str "")]) ]

/-- Fixture: a buffered upstream response whose first choice carries one
tool call. -/
def fixResponse : PyVal :=
  .dict
    [ ("choices", .list
        [ .dict
            [ ("message", .dict
                [ ("role", .str "assistant"),
                  ("tool_calls", .list [fixToolCall]) ]) ] ]) ]

/-- Fixture: a Notion API stub that always answers 200 with an empty
result list. -/
def fixNet : NotionRequest → NotionResponse :=
  fun _ => ⟨200, "", .dict [("results", .list [])]⟩

/-- Fixture: a continuation upstream stub that would answer 200 with a
final message. -/
def fixUpstream2 : ContinuationRequest → Nat × PyVal :=
  fun _ => (200, .dict [("final", .bool true)])

/-- Fixture: the serialised payload string of the first round-trip, as
`payload` holds after `json.dumps` at line 740. -/
def fixPayloadStr : PyVal :=
  .str "\x7b\"model\": \"gpt-4\", \"messages\": [\x7b\"role\": \"user\", \"content\": \"list my notion databases\"\x7d]\x7d"

/-- Fixture: an active integration handle. -/
def fixIntegration : Integration :=
  ⟨true, "db-token"⟩

/-- Fixture: an `action_data` for the list-databases action. -/
def fixActionData : PyDict :=
  [("action", .str "list_notion_databases"), ("params", .dict [])]

/-- Fixture: a Notion API stub that always fails with a 404. -/
def fixNet404 : NotionRequest → NotionResponse :=
  fun _ => ⟨404, "boom", .none⟩

/-- Fixture: the request `fixActionData` issues against `fixNet404` with
bearer token "T". -/
def fixReq404 : NotionRequest :=
  ⟨"POST", "https://api.notion.com/v1/search", "T",
    .dict [("filter", .dict [("value", .str "database"), ("property", .str "object")])]⟩

/-- Fixture: a two-provider configuration with no per-provider configs. -/
def fixCfg2 : OpenAIConfig :=
  ⟨true, ["https://a.example/v1", "https://b.example/v1"], ["k0", "k1"], []⟩

/-- Fixture: both providers report the same raw model id `m`. -/
def fixNet2 : Nat → Option PyVal :=
  fun _ => some (.dict [("data", .list [.dict [("id", .str "m")]])])

/-- Fixture: provider 0 replies with one model, provider 1 is
unreachable (its fetch errored or timed out, yielding `None`). -/
def fixNetC2 : Nat → Option PyVal
  | 0 => some (.dict [("data", .list [.dict [("id", .str "gpt-4")]])])
  | _ => Option.none

/-- Fixture: a catalog map carrying `gpt-4` at provider 0. -/
def fixCatalog : PyDict :=
  [("gpt-4", .dict [("id", .str "gpt-4"), ("urlIdx", .int 0)])]

/-- Fixture: a verified caller. -/
def fixUser : UserCtx :=
  ⟨"u1", "User One", "u1@example.com", "admin"⟩

/-- Fixture: a request whose last list entry is an assistant message
although the last user message asks to list Notion databases. -/
def fixForm9 : PyDict :=
  [ ("model", .str "gpt-4"),
    ("messages", .list
      [ .dict [("role", .str "user"), ("content", .str "list notion databases")],
        .dict [("role", .str "assistant"), ("content", .str "hello")] ]) ]

/-!
## Theorems

First a layer of lemmas about the dictionary model, then the claim
theorems.
-/

theorem dcontains_eq_false_iff (d : PyDict) (k : String) :
    dcontains d k = false ↔ dget d k = Option.none := by
  induction d with
  | nil => simp [dcontains, dget]
  | cons p tl ih =>
    rcases hp : (p.1 == k) with _ | _
    · simp only [dcontains, List.any_cons, hp, Bool.false_or, dget, List.find?] at *
      exact ih
    · simp [dcontains, dget, List.find?, hp]

theorem dcontains_eq_true_iff (d : PyDict) (k : String) :
    dcontains d k = true ↔ ∃ v, dget d k = some v := by
  rcases h : dget d k with _ | v
  · rw [← dcontains_eq_false_iff] at h
    simp [h]
  · constructor
    · exact fun _ => ⟨v, rfl⟩
    · intro
      by_contra hc
      simp only [Bool.not_eq_true] at hc
      rw [dcontains_eq_false_iff] at hc
      simp [hc] at h

theorem dget_dset_self (d : PyDict) (k : String) (v : PyVal) :
    dget (dset d k v) k = some v := by
  induction d with
  | nil => simp [dset, dget, List.find?]
  | cons p tl ih =>
    rcases hp : (p.1 == k) with _ | _
    · simp only [dset, hp, Bool.false_eq_true, if_false, dget, List.find?]
      exact ih
    · simp [dset, hp, dget, List.find?]

theorem dget_dset_ne (d : PyDict) (k : String) (v : PyVal) (k' : String) (h : k' ≠ k) :
    dget (dset d k v) k' = dget d k' := by
  induction d with
  | nil =>
    simp only [dset, dget, List.find?]
    have : (k == k') = false := by
      simp [Ne.symm h]
    simp [this]
  | cons p tl ih =>
    rcases hp : (p.1 == k) with _ | _
    · simp only [dset, hp, Bool.false_eq_true, if_false, dget, List.find?]
      rcases hq : (p.1 == k') with _ | _
      · simp only [hq]
        exact ih
      · simp [hq]
    · simp only [dset, hp, if_true, dget, List.find?]
      have hkk : (k == k') = false := by simp [Ne.symm h]
      have hpk : (p.1 == k') = false := by
        simp only [beq_iff_eq] at hp
        simp [hp, Ne.symm h]
      simp [hkk, hpk]

theorem dget_ddel_ne (d : PyDict) (k k' : String) (h : k' ≠ k) :
    dget (ddel d k) k' = dget d k' := by
  induction d with
  | nil => simp [ddel, dget]
  | cons p tl ih =>
    rcases hp : (p.1 == k) with _ | _
    · have : (p.1 != k) = true := by simp [bne, hp]
      simp only [ddel, List.filter, this, dget, List.find?] at *
      rcases hq : (p.1 == k') with _ | _
      · simp only [hq]
        exact ih
      · simp [hq]
    · have hne : (p.1 != k) = false := by simp_all
      have hpk : (p.1 == k') = false := by
        simp only [beq_iff_eq] at hp
        simp [hp, Ne.symm h]
      simp only [ddel, List.filter, hne, dget, List.find?] at *
      simp only [hpk]
      exact ih

theorem dget_ddel_self (d : PyDict) (k : String) :
    dget (ddel d k) k = Option.none := by
  induction d with
  | nil => simp [ddel, dget]
  | cons p tl ih =>
    rcases hp : (p.1 == k) with _ | _
    · have : (p.1 != k) = true := by simp [bne, hp]
      simp only [ddel, List.filter, this, dget, List.find?] at *
      simp only [hp]
      exact ih
    · have : (p.1 != k) = false := by simp_all
      simp only [ddel, List.filter, this] at *
      exact ih

theorem dcontains_dset_self (d : PyDict) (k : String) (v : PyVal) :
    dcontains (dset d k v) k = true := by
  rw [dcontains_eq_true_iff]
  exact ⟨v, dget_dset_self d k v⟩

theorem dcontains_dset_ne (d : PyDict) (k : String) (v : PyVal) (k' : String) (h : k' ≠ k) :
    dcontains (dset d k v) k' = dcontains d k' := by
  rcases hc : dcontains d k' with _ | _
  · rw [dcontains_eq_false_iff] at hc ⊢
    rw [dget_dset_ne d k v k' h]
    exact hc
  · rw [dcontains_eq_true_iff] at hc ⊢
    rw [dget_dset_ne d k v k' h]
    exact hc

theorem dcontains_ddel_self (d : PyDict) (k : String) :
    dcontains (ddel d k) k = false := by
  rw [dcontains_eq_false_iff]
  exact dget_ddel_self d k

theorem dcontains_ddel_ne (d : PyDict) (k k' : String) (h : k' ≠ k) :
    dcontains (ddel d k) k' = dcontains d k' := by
  rcases hc : dcontains d k' with _ | _
  · rw [dcontains_eq_false_iff] at hc ⊢
    rw [dget_ddel_ne d k k' h]
    exact hc
  · rw [dcontains_eq_true_iff] at hc ⊢
    rw [dget_ddel_ne d k k' h]
    exact hc

theorem dgetD_of_dget (d : PyDict) (k : String) (v w : PyVal) (h : dget d k = some w) :
    dgetD d k v = w := by
  simp [dgetD, h]

theorem dgetD_of_none (d : PyDict) (k : String) (v : PyVal) (h : dget d k = Option.none) :
    dgetD d k v = v := by
  simp [dgetD, h]

/-!
### Substring lemmas
-/

theorem listStartsWith_of_append (n1 n2 h : List Char)
    (hs : listStartsWith (n1 ++ n2) h = true) : listStartsWith n1 h = true := by
  induction n1 generalizing h with
  | nil => simp [listStartsWith]
  | cons a as ih =>
    cases h with
    | nil => simp [listStartsWith] at hs
    | cons b bs =>
      simp only [List.cons_append, listStartsWith, Bool.and_eq_true] at hs ⊢
      exact ⟨hs.1, ih bs hs.2⟩

theorem listContains_of_append (n1 n2 h : List Char)
    (hc : listContains (n1 ++ n2) h = true) : listContains n1 h = true := by
  induction h with
  | nil =>
    simp only [listContains, List.isEmpty_eq_true, List.append_eq_nil] at hc
    simp [listContains, hc.1]
  | cons b bs ih =>
    simp only [listContains, Bool.or_eq_true] at hc ⊢
    rcases hc with hc | hc
    · exact Or.inl (listStartsWith_of_append n1 n2 (b :: bs) hc)
    · exact Or.inr (ih hc)

theorem pyIn_of_append (s1 s2 m : String) (h : pyIn (s1 ++ s2) m = true) :
    pyIn s1 m = true := by
  simp only [pyIn] at h ⊢
  have hd : (s1 ++ s2).data = s1.data ++ s2.data := by
    simp
  rw [hd] at h
  exact listContains_of_append s1.data s2.data m.data h

/-!
### The o1/o3 token-rename and handler
-/

theorem o1_token_rename_frame (p : PyDict) (k : String)
    (h1 : k ≠ "max_tokens") (h2 : k ≠ "max_completion_tokens") :
    dget (o1_token_rename p) k = dget p k := by
  unfold o1_token_rename
  by_cases hc : dcontains p "max_tokens"
  · simp only [hc, if_true]
    rw [dget_ddel_ne _ _ _ h1, dget_dset_ne _ _ _ _ h2]
  · simp [hc]

theorem o1_token_rename_mt (p : PyDict) :
    dget (o1_token_rename p) "max_tokens" = Option.none := by
  unfold o1_token_rename
  by_cases hc : dcontains p "max_tokens"
  · simp only [hc, if_true]
    exact dget_ddel_self _ _
  · simp only [hc, Bool.false_eq_true, if_false]
    rw [← dcontains_eq_false_iff]
    simpa using hc

theorem o1_token_rename_mct_of_contains (p : PyDict)
    (hc : dcontains p "max_tokens" = true) :
    dget (o1_token_rename p) "max_completion_tokens" = dget p "max_tokens" := by
  unfold o1_token_rename
  simp only [hc, if_true]
  rw [dget_ddel_ne _ _ _ (by decide), dget_dset_self]
  rcases (dcontains_eq_true_iff p "max_tokens").mp hc with ⟨w, hw⟩
  rw [dgetD_of_dget _ _ _ _ hw, hw]

theorem o1_token_rename_mct_of_not (p : PyDict)
    (hc : dcontains p "max_tokens" = false) :
    dget (o1_token_rename p) "max_completion_tokens" = dget p "max_completion_tokens" := by
  unfold o1_token_rename
  simp [hc]

/-- The central characterisation of `openai_o1_o3_handler` on payloads it
is defined on: the handler succeeds, only the max-token fields and the
first message's role change, and the role rewrite follows the model
variant. -/
theorem o1_handler_spec (p : PyDict) (md : PyDict) (r : PyVal) (rest : List PyVal)
    (hmsg : dget p "messages" = some (.list (.dict md :: rest)))
    (hrole : dget md "role" = some r)
    (hmodel : pyEqStr r "system" = true → ∃ s, dget p "model" = some (.str s)) :
    ∃ q md', openai_o1_o3_handler p = .ok q ∧
      dget q "messages" = some (.list (.dict md' :: rest)) ∧
      (∀ k, k ≠ "role" → dget md' k = dget md k) ∧
      (∀ k, k ≠ "max_tokens" → k ≠ "max_completion_tokens" → k ≠ "messages" →
        dget q k = dget p k) ∧
      dget q "max_tokens" = Option.none ∧
      (dcontains p "max_tokens" = true →
        dget q "max_completion_tokens" = dget p "max_tokens") ∧
      (dcontains p "max_tokens" = false →
        dget q "max_completion_tokens" = dget p "max_completion_tokens") ∧
      (pyEqStr r "system" = false → dget md' "role" = some r) ∧
      (∀ s, dget p "model" = some (.str s) → pyEqStr r "system" = true →
        dget md' "role" = some (.str
          (if pyStartsWith (pyLower s) "o1-mini" || pyStartsWith (pyLower s) "o1-preview"
           then "user" else "developer"))) := by
  have hmsg1 : dget (o1_token_rename p) "messages" = some (.list (.dict md :: rest)) := by
    rw [o1_token_rename_frame p "messages" (by decide) (by decide)]
    exact hmsg
  have hmodel1 : ∀ s, dget p "model" = some (.str s) →
      dget (o1_token_rename p) "model" = some (.str s) := by
    intro s hs
    rw [o1_token_rename_frame p "model" (by decide) (by decide)]
    exact hs
  rcases hr : pyEqStr r "system" with _ | _
  · refine ⟨o1_token_rename p, md, ?_, hmsg1, ?_, ?_, ?_, ?_, ?_, ?_, ?_⟩
    · simp [openai_o1_o3_handler, hmsg1, hrole, hr]
    · exact fun k _ => rfl
    · exact fun k h1 h2 _ => o1_token_rename_frame p k h1 h2
    · exact o1_token_rename_mt p
    · exact o1_token_rename_mct_of_contains p
    · exact o1_token_rename_mct_of_not p
    · exact fun _ => hrole
    · intro s _ hsys
      exact (Bool.false_ne_true hsys).elim
  · rcases hmodel hr with ⟨s, hs⟩
    have hs1 := hmodel1 s hs
    refine ⟨dset (o1_token_rename p) "messages"
        (.list (.dict (dset md "role" (.str
          (if pyStartsWith (pyLower s) "o1-mini" || pyStartsWith (pyLower s) "o1-preview"
           then "user" else "developer"))) :: rest)),
      dset md "role" (.str
        (if pyStartsWith (pyLower s) "o1-mini" || pyStartsWith (pyLower s) "o1-preview"
         then "user" else "developer")), ?_, ?_, ?_, ?_, ?_, ?_, ?_, ?_, ?_⟩
    · simp [openai_o1_o3_handler, hmsg1, hrole, hr, hs1]
    · exact dget_dset_self _ _ _
    · exact fun k hk => dget_dset_ne _ _ _ _ hk
    · intro k h1 h2 h3
      rw [dget_dset_ne _ _ _ _ h3]
      exact o1_token_rename_frame p k h1 h2
    · rw [dget_dset_ne _ _ _ _ (by decide)]
      exact o1_token_rename_mt p
    · intro hc
      rw [dget_dset_ne _ _ _ _ (by decide)]
      exact o1_token_rename_mct_of_contains p hc
    · intro hc
      rw [dget_dset_ne _ _ _ _ (by decide)]
      exact o1_token_rename_mct_of_not p hc
    · intro hcon
      exact absurd hcon (by decide)
    · intro s' hs' _
      have : s' = s := by
        rw [hs] at hs'
        cases hs'
        rfl
      subst this
      exact dget_dset_self _ _ _

/-!
### Claim theorems
-/

/-- C4: for every recognised Notion tool function name, tool-call
arguments arriving as the empty string, the malformed string "\x7b", or
`None` decode to the empty parameter dictionary, and the mapping
returned is a well-formed action/parameter dictionary.  Both
`decode_notion_arguments` and `handle_notion_function_execution` are
total functions, so the decoding never raises or aborts the
orchestration. -/
theorem notion_malformed_arguments_resolve_empty :
    ∀ fn ∈ notionFunctionNames,
      ∀ arg ∈ [PyVal.str "", PyVal.str "\x7b", PyVal.none],
        decode_notion_arguments arg = [] ∧
        isWellFormedActionData (handle_notion_function_execution fn arg) = true := by
  intro fn hfn arg harg
  fin_cases hfn <;> fin_cases harg <;> exact ⟨rfl, rfl⟩

/-- Witness for C4 at `search_notion` with the malformed string "\x7b". -/
theorem notion_malformed_arguments_resolve_empty_witness :
    decode_notion_arguments (PyVal.str "\x7b") = [] ∧
    isWellFormedActionData
      (handle_notion_function_execution "search_notion" (PyVal.str "\x7b")) = true :=
  notion_malformed_arguments_resolve_empty "search_notion" (by simp [notionFunctionNames])
    (PyVal.str "\x7b") (by simp)

/-- C10 counterexample: a payload whose `messages` list is non-empty but
whose first message has no `role` field makes the handler raise
(`KeyError`), so the non-empty-messages precondition alone does not make
the handler defined, contrary to the claim. -/
theorem o1_handler_nonempty_not_sufficient :
    openai_o1_o3_handler [("messages", .list [.dict []])] = .error (.keyError "role") := rfl

/-- C10 (amended): on a payload whose `messages` is a non-empty list
whose first message is a dictionary with a `role` field — and, when that
role is "system", with a string `model` field — the handler returns the
payload with every field other than the max-token fields and `messages`
unchanged, every message after the first unchanged, and the first
message changed at most in its `role`; the handler errors when
`messages` is absent or empty. -/
theorem o1_handler_frame_amended :
    (∀ p md r rest, dget p "messages" = some (.list (.dict md :: rest)) →
      dget md "role" = some r →
      (pyEqStr r "system" = true → ∃ s, dget p "model" = some (.str s)) →
      ∃ q md', openai_o1_o3_handler p = .ok q ∧
        (∀ k, k ≠ "max_tokens" → k ≠ "max_completion_tokens" → k ≠ "messages" →
          dget q k = dget p k) ∧
        dget q "messages" = some (.list (.dict md' :: rest)) ∧
        (∀ k, k ≠ "role" → dget md' k = dget md k)) ∧
    (∀ p, dget p "messages" = Option.none →
      openai_o1_o3_handler p = .error (.keyError "messages")) ∧
    (∀ p, dget p "messages" = some (.list []) →
      openai_o1_o3_handler p = .error .indexError) := by
  refine ⟨?_, ?_, ?_⟩
  · intro p md r rest hmsg hrole hmodel
    rcases o1_handler_spec p md r rest hmsg hrole hmodel with
      ⟨q, md', hok, hqmsg, hmd, hq, _⟩
    exact ⟨q, md', hok, hq, hqmsg, hmd⟩
  · intro p hmsg
    have h1 : dget (o1_token_rename p) "messages" = Option.none := by
      rw [o1_token_rename_frame p "messages" (by decide) (by decide)]
      exact hmsg
    simp [openai_o1_o3_handler, h1]
  · intro p hmsg
    have h1 : dget (o1_token_rename p) "messages" = some (.list []) := by
      rw [o1_token_rename_frame p "messages" (by decide) (by decide)]
      exact hmsg
    simp [openai_o1_o3_handler, h1]

/-- Witness for C10 (amended): frame facts at a concrete o1-mini
payload, and the error on an empty payload. -/
theorem o1_handler_frame_amended_witness :
    (∃ q md', openai_o1_o3_handler
        [("model", .str "o1-mini"), ("max_tokens", .int 100),
         ("messages", .list [.dict [("role", .str "system"), ("content", .str "x")]])] = .ok q ∧
      (∀ k, k ≠ "max_tokens" → k ≠ "max_completion_tokens" → k ≠ "messages" →
        dget q k = dget [("model", PyVal.str "o1-mini"), ("max_tokens", PyVal.int 100),
          ("messages", PyVal.list [PyVal.dict [("role", PyVal.str "system"), ("content", PyVal.str "x")]])] k) ∧
      dget q "messages" = some (.list (.dict md' :: [])) ∧
      (∀ k, k ≠ "role" → dget md' k =
        dget [("role", PyVal.str "system"), ("content", PyVal.str "x")] k)) ∧
    openai_o1_o3_handler [] = .error (.keyError "messages") :=
  ⟨o1_handler_frame_amended.1
      [("model", .str "o1-mini"), ("max_tokens", .int 100),
       ("messages", .list [.dict [("role", .str "system"), ("content", .str "x")]])]
      [("role", .str "system"), ("content", .str "x")] (.str "system") [] rfl rfl
      (fun _ => ⟨"o1-mini", rfl⟩),
    o1_handler_frame_amended.2.1 [] rfl⟩

/-- C7: for every payload whose model is in the o1/o3 families (with a
well-formed first message), the token-limit normalisation renames
`max_tokens` to `max_completion_tokens`, never leaves both fields
present (the generic one is gone), and rewrites a leading "system" role
to "user" for o1-mini/o1-preview and to "developer" otherwise. -/
theorem o1_o3_normalization (url : String) (p md : PyDict) (m : String) (r : PyVal)
    (rest : List PyVal)
    (hm : dget p "model" = some (.str m))
    (ho : (pyStartsWith (pyLower m) "o1" || pyStartsWith (pyLower m) "o3-") = true)
    (hmsg : dget p "messages" = some (.list (.dict md :: rest)))
    (hrole : dget md "role" = some r) :
    ∃ q md', normalize_token_limits url p = .ok q ∧
      dget q "max_tokens" = Option.none ∧
      (dcontains p "max_tokens" = true →
        dget q "max_completion_tokens" = dget p "max_tokens") ∧
      ¬(dcontains q "max_tokens" = true ∧ dcontains q "max_completion_tokens" = true) ∧
      dget q "messages" = some (.list (.dict md' :: rest)) ∧
      (pyEqStr r "system" = true → dget md' "role" = some (.str
        (if pyStartsWith (pyLower m) "o1-mini" || pyStartsWith (pyLower m) "o1-preview"
         then "user" else "developer"))) ∧
      (pyEqStr r "system" = false → dget md' "role" = some r) := by
  rcases o1_handler_spec p md r rest hmsg hrole (fun _ => ⟨m, hm⟩) with
    ⟨q, md', hok, hqmsg, _, _, hmt, hmct, _, hrolef, hrolet⟩
  have hmtc : dcontains q "max_tokens" = false := by
    rw [dcontains_eq_false_iff]
    exact hmt
  have hdrop : drop_generic_when_both q = q := by
    unfold drop_generic_when_both
    simp [hmtc]
  refine ⟨q, md', ?_, hmt, hmct, ?_, hqmsg, ?_, hrolef⟩
  · simp [normalize_token_limits, hm, ho, hok, hdrop]
  · intro hcon
    rw [hmtc] at hcon
    exact absurd hcon.1 (by decide)
  · intro hsys
    exact hrolet m hm hsys

/-- Witness for C7 at a concrete o1-mini payload carrying `max_tokens`
and a leading system message. -/
theorem o1_o3_normalization_witness :
    ∃ q md', normalize_token_limits "https://api.openai.com/v1"
        [("model", .str "o1-mini"), ("max_tokens", .int 100),
         ("messages", .list [.dict [("role", .str "system"), ("content", .str "x")]])] = .ok q ∧
      dget q "max_tokens" = Option.none ∧
      (dcontains [("model", PyVal.str "o1-mini"), ("max_tokens", PyVal.int 100),
          ("messages", PyVal.list [PyVal.dict [("role", PyVal.str "system"), ("content", PyVal.str "x")]])]
          "max_tokens" = true →
        dget q "max_completion_tokens" =
          dget [("model", PyVal.str "o1-mini"), ("max_tokens", PyVal.int 100),
            ("messages", PyVal.list [PyVal.dict [("role", PyVal.str "system"), ("content", PyVal.str "x")]])]
            "max_tokens") ∧
      ¬(dcontains q "max_tokens" = true ∧ dcontains q "max_completion_tokens" = true) ∧
      dget q "messages" = some (.list (.dict md' :: [])) ∧
      (pyEqStr (.str "system") "system" = true → dget md' "role" = some (.str
        (if pyStartsWith (pyLower "o1-mini") "o1-mini" || pyStartsWith (pyLower "o1-mini") "o1-preview"
         then "user" else "developer"))) ∧
      (pyEqStr (.str "system") "system" = false → dget md' "role" = some (.str "system")) :=
  o1_o3_normalization "https://api.openai.com/v1"
    [("model", .str "o1-mini"), ("max_tokens", .int 100),
     ("messages", .list [.dict [("role", .str "system"), ("content", .str "x")]])]
    [("role", .str "system"), ("content", .str "x")] "o1-mini" (.str "system") []
    rfl rfl rfl rfl

/-- C1 (code bug): for the buffered response `fixResponse`, whose first
choice's message carries exactly one tool call, and an active
integration whose tool execution succeeds, the gateway issues NO
continuation request and returns the original tool-call-bearing
response: at line 740 the local `payload` was replaced by its
`json.dumps` string, so `payload.get("messages", [])` at line 971
raises `AttributeError`, which the catch-all at line 1025 swallows. -/
theorem buffered_continuation_never_issued :
    (process_buffered_response fixPayloadStr "KEY" "https://a.example/v1"
        (some fixIntegration) Option.none fixNet fixUpstream2 fixResponse) =
      (fixResponse, []) ∧
    (match fixResponse with
     | .dict rd => dget rd "choices"
     | _ => Option.none) =
      some (.list [.dict [("message", .dict
        [("role", .str "assistant"), ("tool_calls", .list [fixToolCall])])]]) ∧
    continue_with_responses fixPayloadStr "KEY" "https://a.example/v1"
        (.dict [("role", .str "assistant"), ("tool_calls", .list [fixToolCall])])
        [] = .error (.attributeError "get") :=
  ⟨rfl, rfl, rfl⟩

/-- C5 (code bug): when the re-fetched integration handle is absent, the
orchestrator does produce a Tool Result whose content decodes to a
structured "integration not connected" error — but the model's final
response is never obtained: building the continuation crashes on the
stringified payload, the exception is swallowed, and the gateway
returns the FIRST-round tool-call response instead of the final one. -/
theorem inactive_integration_tool_result :
    collect_function_responses Option.none Option.none fixNet [fixToolCall] =
      .ok [.dict [("tool_call_id", .str "call_1"), ("role", .str "tool"),
        ("name", .str "list_notion_databases"),
        ("content", .str "\x7b\"error\": \"Notion integration not connected. Please connect Notion in the Integrations page.\"\x7d")]] ∧
    jsonLoads "\x7b\"error\": \"Notion integration not connected. Please connect Notion in the Integrations page.\"\x7d" =
      some (.dict [("error", .str "Notion integration not connected. Please connect Notion in the Integrations page.")]) ∧
    (process_buffered_response fixPayloadStr "KEY" "https://a.example/v1"
        Option.none Option.none fixNet fixUpstream2 fixResponse) = (fixResponse, []) :=
  ⟨rfl, rfl, rfl⟩

/-- C6 counterexample: two providers (neither first-party, no prefixes)
both report raw id "m"; the routing map entry for "m" carries
`urlIdx = 1` — the LAST provider in configured order — not the first as
claimed. -/
theorem duplicate_id_last_provider_wins :
    (∃ models mp, get_all_models fixCfg2 fixNet2 = .ok (models, some mp) ∧
      ∃ entry, dget mp "m" = some entry ∧ pyGet entry "urlIdx" = .ok (.int 1)) ∧
    PyVal.int 1 ≠ PyVal.int 0 :=
  ⟨⟨_, _, rfl, _, rfl, rfl⟩, by simp⟩

/-- C8 counterexample: with the `NOTION_ACCESS_TOKEN` environment
variable set, the Notion API request carries the environment token, not
the access token of the caller's integration handle. -/
theorem notion_env_token_overrides_handle :
    ((execute_notion_tool (some "env-token") fixActionData "db-token" fixNet).1.map
      (fun r => r.bearer)) = ["env-token"] ∧ "env-token" ≠ "db-token" :=
  ⟨rfl, by decide⟩

/-- C9 counterexample: a request whose LAST USER message contains
"list notion databases" but whose final message is an assistant
message is forwarded without any forced `tool_choice` — the code
inspects only the final message of the list. -/
theorem last_user_message_not_inspected :
    ∃ p b, generate_chat_completion_route false true fixUser false Option.none id id fixCatalog
        ["https://a.example/v1"] ["k0"] [] (some fixIntegration) fixForm9 =
      .forward 0 "https://a.example/v1" p b ∧ dget p "tool_choice" = Option.none :=
  ⟨_, _, rfl, rfl⟩

/-- C3: for every completion request whose (base-model-resolved) model id
is absent from the aggregated catalog map, the router rejects with a
"Model not found" error (403 before the lookup for unauthorised callers,
404 at the lookup) — a `reject` outcome, so no upstream completion
request is built or issued, whatever the provider state. -/
theorem unknown_model_not_found (bypA bypB : Bool) (user : UserCtx) (hacc : Bool)
    (mi : Option ModelInfo) (ap asp : PyDict → PyDict) (om : PyDict)
    (urls keys : List String) (configs : PyDict) (ni : Option Integration) (fd : PyDict)
    (habs : ∀ s, effective_model_id mi fd = some (.str s) → dget om s = Option.none) :
    ∃ st, generate_chat_completion_route bypA bypB user hacc mi ap asp om urls keys
        configs ni fd = .reject st "Model not found" ∧ (st = 403 ∨ st = 404) := by
  unfold generate_chat_completion_route
  cases mi with
  | none =>
    rcases hcnd : (!(bypB || bypA) && user.role != "admin") with _ | _
    · simp only [hcnd, Bool.false_eq_true, if_false]
      have : (match dget fd "model" with
          | some (.str s) => dget om s
          | _ => (Option.none : Option PyVal)) = Option.none := by
        rcases hm : dget fd "model" with _ | v
        · rfl
        · cases v <;> try rfl
          exact habs _ (by simpa [effective_model_id] using hm)
      simp only [ddel]
      rw [this]
      exact ⟨404, rfl, Or.inr rfl⟩
    · simp only [hcnd, if_true]
      exact ⟨403, rfl, Or.inl rfl⟩
  | some mic =>
    rcases hcnd : (!(bypB || bypA) && user.role == "user" &&
        !(user.id == mic.user_id || hacc)) with _ | _
    · simp only [hcnd, Bool.false_eq_true, if_false]
      cases hb : mic.base_model_id with
      | none =>
        have : (match dget fd "model" with
            | some (.str s) => dget om s
            | _ => (Option.none : Option PyVal)) = Option.none := by
          rcases hm : dget fd "model" with _ | v
          · rfl
          · cases v <;> try rfl
            exact habs _ (by simpa [effective_model_id, hb] using hm)
        simp only [hb]
        rw [this]
        exact ⟨404, rfl, Or.inr rfl⟩
      | some b =>
        have : dget om b = Option.none := habs b (by simp [effective_model_id, hb])
        simp only [hb]
        rw [this]
        exact ⟨404, rfl, Or.inr rfl⟩
    · simp only [hcnd, if_true]
      exact ⟨403, rfl, Or.inl rfl⟩

/-- Witness for C3: a request for the unknown id "ghost" against an
empty catalog is rejected with "Model not found". -/
theorem unknown_model_not_found_witness :
    ∃ st, generate_chat_completion_route false true fixUser false Option.none id id []
        ["https://a.example/v1"] ["k0"] [] Option.none [("model", .str "ghost")] =
      .reject st "Model not found" ∧ (st = 403 ∨ st = 404) :=
  unknown_model_not_found false true fixUser false Option.none id id []
    ["https://a.example/v1"] ["k0"] [] Option.none [("model", .str "ghost")]
    (fun _ _ => rfl)

/-- The request/non-200 contract of the `search` branch. -/
theorem execute_search_action_requests (tok : String) (params : PyVal)
    (net : NotionRequest → NotionResponse) :
    (execute_search_action tok params net).1 = [] ∨
    ∃ req, (execute_search_action tok params net).1 = [req] ∧ req.bearer = tok ∧
      ((net req).status ≠ 200 →
        (execute_search_action tok params net).2 =
          .ok [("error", .bool true),
               ("message", .str ("Notion API error: " ++ (net req).text))]) := by
  unfold execute_search_action
  repeat'
    first
      | split
      | dsimp only
  all_goals
    first
      | exact Or.inl rfl
      | exact Or.inr ⟨_, rfl, rfl, fun _ => rfl⟩
      | (rename_i hst
         refine Or.inr ⟨_, rfl, rfl, fun h => ?_⟩
         exfalso
         apply h
         simpa using hst)

/-- The request/non-200 contract of the `list_databases` branch. -/
theorem execute_list_databases_action_requests (tok : String)
    (net : NotionRequest → NotionResponse) :
    (execute_list_databases_action tok net).1 = [] ∨
    ∃ req, (execute_list_databases_action tok net).1 = [req] ∧ req.bearer = tok ∧
      ((net req).status ≠ 200 →
        (execute_list_databases_action tok net).2 =
          .ok [("error", .bool true),
               ("message", .str ("Notion API error: " ++ (net req).text))]) := by
  unfold execute_list_databases_action
  repeat'
    first
      | split
      | dsimp only
  all_goals
    first
      | exact Or.inl rfl
      | exact Or.inr ⟨_, rfl, rfl, fun _ => rfl⟩
      | (rename_i hst
         refine Or.inr ⟨_, rfl, rfl, fun h => ?_⟩
         exfalso
         apply h
         simpa using hst)

/-- The request/non-200 contract of the `query_database` branch. -/
theorem execute_query_database_action_requests (tok : String) (params : PyVal)
    (net : NotionRequest → NotionResponse) :
    (execute_query_database_action tok params net).1 = [] ∨
    ∃ req, (execute_query_database_action tok params net).1 = [req] ∧ req.bearer = tok ∧
      ((net req).status ≠ 200 →
        (execute_query_database_action tok params net).2 =
          .ok [("error", .bool true),
               ("message", .str ("Notion API error: " ++ (net req).text))]) := by
  unfold execute_query_database_action
  repeat'
    first
      | split
      | dsimp only
  all_goals
    first
      | exact Or.inl rfl
      | exact Or.inr ⟨_, rfl, rfl, fun _ => rfl⟩
      | (rename_i hst
         refine Or.inr ⟨_, rfl, rfl, fun h => ?_⟩
         exfalso
         apply h
         simpa using hst)

/-- The request/non-200 contract of the `create_page` branch. -/
theorem execute_create_page_action_requests (tok : String) (params : PyVal)
    (net : NotionRequest → NotionResponse) :
    (execute_create_page_action tok params net).1 = [] ∨
    ∃ req, (execute_create_page_action tok params net).1 = [req] ∧ req.bearer = tok ∧
      ((net req).status ≠ 200 →
        (execute_create_page_action tok params net).2 =
          .ok [("error", .bool true),
               ("message", .str ("Notion API error: " ++ (net req).text))]) := by
  unfold execute_create_page_action
  repeat'
    first
      | split
      | dsimp only
  all_goals
    first
      | exact Or.inl rfl
      | exact Or.inr ⟨_, rfl, rfl, fun _ => rfl⟩
      | (rename_i hst
         refine Or.inr ⟨_, rfl, rfl, fun h => ?_⟩
         exfalso
         apply h
         simpa using hst)

/-- The request/non-200 contract of the `update_page` branch. -/
theorem execute_update_page_action_requests (tok : String) (params : PyVal)
    (net : NotionRequest → NotionResponse) :
    (execute_update_page_action tok params net).1 = [] ∨
    ∃ req, (execute_update_page_action tok params net).1 = [req] ∧ req.bearer = tok ∧
      ((net req).status ≠ 200 →
        (execute_update_page_action tok params net).2 =
          .ok [("error", .bool true),
               ("message", .str ("Notion API error: " ++ (net req).text))]) := by
  unfold execute_update_page_action
  repeat'
    first
      | split
      | dsimp only
  all_goals
    first
      | exact Or.inl rfl
      | exact Or.inr ⟨_, rfl, rfl, fun _ => rfl⟩
      | (rename_i hst
         refine Or.inr ⟨_, rfl, rfl, fun h => ?_⟩
         exfalso
         apply h
         simpa using hst)

/-- Every Notion API request issued by `execute_notion_tool_core` is a
single request bearing the effective token, and a non-200 reply makes
the core return the "Notion API error" dictionary carrying the
upstream's text. -/
theorem execute_core_requests (tok : String) (action params : PyVal)
    (net : NotionRequest → NotionResponse) :
    (execute_notion_tool_core tok action params net).1 = [] ∨
    ∃ req, (execute_notion_tool_core tok action params net).1 = [req] ∧ req.bearer = tok ∧
      ((net req).status ≠ 200 →
        (execute_notion_tool_core tok action params net).2 =
          .ok [("error", .bool true),
               ("message", .str ("Notion API error: " ++ (net req).text))]) := by
  unfold execute_notion_tool_core
  split
  · exact execute_search_action_requests tok params net
  · split
    · exact execute_list_databases_action_requests tok net
    · split
      · exact execute_query_database_action_requests tok params net
      · split
        · exact execute_create_page_action_requests tok params net
        · split
          · exact execute_update_page_action_requests tok params net
          · exact Or.inl rfl

/-- C8 (amended): every external-service request issued by
`execute_notion_tool` carries the `NOTION_ACCESS_TOKEN` environment
token when that variable is set, and the handle's access token
otherwise; a non-200 (hence any non-2xx) reply produces a Tool Result
dictionary carrying the upstream error text instead of a raised
exception. -/
theorem notion_tool_token_and_error (envt : Option String) (ad : PyDict) (tok : String)
    (net : NotionRequest → NotionResponse) :
    (∀ r ∈ (execute_notion_tool envt ad tok net).1,
      r.bearer = (match envt with | some t => t | Option.none => tok)) ∧
    (∀ r, (execute_notion_tool envt ad tok net).1 = [r] → (net r).status ≠ 200 →
      (execute_notion_tool envt ad tok net).2 =
        [("error", .bool true),
         ("message", .str ("Notion API error: " ++ (net r).text))]) := by
  generalize htk : (match envt with | some t => t | Option.none => tok) = tokEff
  have hcc := execute_core_requests tokEff
    (dgetD ad "action" (.str "")) (dgetD ad "params" (.dict [])) net
  rcases hcore : execute_notion_tool_core tokEff
      (dgetD ad "action" (.str "")) (dgetD ad "params" (.dict [])) net with ⟨reqs, res⟩
  rw [hcore] at hcc
  have h1 : (execute_notion_tool envt ad tok net).1 = reqs := by
    unfold execute_notion_tool
    dsimp only
    rw [htk, hcore]
    cases res <;> rfl
  have hres : (execute_notion_tool_core tokEff
      (dgetD ad "action" (.str "")) (dgetD ad "params" (.dict [])) net).2 = res := by
    rw [hcore]
  constructor
  · intro r hr
    rw [h1] at hr
    rcases hcc with h0 | ⟨req, hq1, hq2, _⟩
    · dsimp only at h0
      rw [h0] at hr
      cases hr
    · dsimp only at hq1
      rw [hq1] at hr
      have hr2 : r = req := by
        simpa using hr
      subst hr2
      exact hq2
  · intro r hrr hst
    rw [h1] at hrr
    rcases hcc with h0 | ⟨req, hq1, hq2, hq3⟩
    · dsimp only at h0
      rw [h0] at hrr
      cases hrr
    · dsimp only at hq1
      rw [hq1] at hrr
      have hreq : req = r := by
        cases hrr
        rfl
      subst hreq
      have hok := hq3 hst
      dsimp only at hok
      subst hok
      unfold execute_notion_tool
      dsimp only
      rw [htk, hcore]

/-- Witness for C8 (amended) at the list-databases action against a
404-answering Notion API with the environment token "T" set. -/
theorem notion_tool_token_and_error_witness :
    fixReq404.bearer =
      (match (some "T" : Option String) with | some t => t | Option.none => "db") ∧
    (execute_notion_tool (some "T") fixActionData "db" fixNet404).2 =
      [("error", .bool true),
       ("message", .str ("Notion API error: " ++ (fixNet404 fixReq404).text))] :=
  ⟨(notion_tool_token_and_error (some "T") fixActionData "db" fixNet404).1 fixReq404
      (by exact List.mem_singleton_self fixReq404),
   (notion_tool_token_and_error (some "T") fixActionData "db" fixNet404).2 fixReq404 rfl
      (by decide)⟩

/-!
### Normalisation frame lemmas and the tool-injection lemma (for C9)
-/

theorem legacy_token_rename_frame (p : PyDict) (k : String)
    (h1 : k ≠ "max_tokens") (h2 : k ≠ "max_completion_tokens") :
    dget (legacy_token_rename p) k = dget p k := by
  unfold legacy_token_rename
  by_cases hc : dcontains p "max_completion_tokens"
  · simp only [hc, if_true]
    rw [dget_ddel_ne _ _ _ h2, dget_dset_ne _ _ _ _ h1]
  · simp [hc]

theorem drop_generic_frame (p : PyDict) (k : String) (h1 : k ≠ "max_tokens") :
    dget (drop_generic_when_both p) k = dget p k := by
  unfold drop_generic_when_both
  split
  · exact dget_ddel_ne _ _ _ h1
  · rfl

/-- The token-limit normalisation succeeds on any payload with a string
model and a well-formed first message, and changes nothing besides the
max-token fields and the first message's role. -/
theorem normalize_frame (url : String) (p m0d : PyDict) (m : String) (r : PyVal)
    (tl : List PyVal)
    (hm : dget p "model" = some (.str m))
    (hmsg : dget p "messages" = some (.list (.dict m0d :: tl)))
    (hrole : dget m0d "role" = some r) :
    ∃ q m0d', normalize_token_limits url p = .ok q ∧
      (∀ k, k ≠ "max_tokens" → k ≠ "max_completion_tokens" → k ≠ "messages" →
        dget q k = dget p k) ∧
      dget q "messages" = some (.list (.dict m0d' :: tl)) ∧
      (∀ k, k ≠ "role" → dget m0d' k = dget m0d k) := by
  rcases ho : (pyStartsWith (pyLower m) "o1" || pyStartsWith (pyLower m) "o3-") with _ | _
  · rcases hu : pyIn "api.openai.com" url with _ | _
    · refine ⟨drop_generic_when_both (legacy_token_rename p), m0d, ?_, ?_, ?_, ?_⟩
      · simp [normalize_token_limits, hm, ho, hu, drop_generic_when_both]
      · intro k h1 h2 _
        rw [drop_generic_frame _ _ h1, legacy_token_rename_frame _ _ h1 h2]
      · rw [drop_generic_frame _ _ (by decide),
          legacy_token_rename_frame _ _ (by decide) (by decide)]
        exact hmsg
      · exact fun k _ => rfl
    · refine ⟨drop_generic_when_both p, m0d, ?_, ?_, ?_, ?_⟩
      · simp [normalize_token_limits, hm, ho, hu, drop_generic_when_both]
      · intro k h1 _ _
        exact drop_generic_frame _ _ h1
      · rw [drop_generic_frame _ _ (by decide)]
        exact hmsg
      · exact fun k _ => rfl
  · rcases o1_handler_spec p m0d r tl hmsg hrole (fun _ => ⟨m, hm⟩) with
      ⟨q, m0d', hok, hqmsg, hmd, hq, hmt, _⟩
    have hmtc : dcontains q "max_tokens" = false := by
      rw [dcontains_eq_false_iff]
      exact hmt
    have hdrop : drop_generic_when_both q = q := by
      unfold drop_generic_when_both
      simp [hmtc]
    refine ⟨q, m0d', ?_, hq, hqmsg, hmd⟩
    simp [normalize_token_limits, hm, ho, hok, hdrop]

theorem pyIndexLast_of_getLast (xs : List PyVal) (x : PyVal)
    (h : xs.getLast? = some x) : pyIndexLast (.list xs) = .ok x := by
  cases xs with
  | nil => simp at h
  | cons a l =>
    simp only [pyIndexLast]
    rw [List.getLast?_eq_getLast (a :: l) (by simp)] at h
    rw [Option.some_inj] at h
    rw [h]

/-- When the caller has an active integration and the final message's
content (lowercased) contains a database-listing phrase, the
tool-injection block appends the five Notion tools and forces
`tool_choice` to `list_notion_databases`. -/
theorem add_tools_forces (i : Integration) (p mdl : PyDict) (msgs : List PyVal)
    (content : String)
    (hi : i.active = true)
    (hmsgs : dget p "messages" = some (.list msgs))
    (hlast : msgs.getLast? = some (.dict mdl))
    (hcontent : dget mdl "content" = some (.str content))
    (hph : pyIn "list notion database" (pyLower content) = true)
    (htools : dget p "tools" = Option.none) :
    dget (add_notion_integration_tools (some i) p) "tools" =
      some (.list get_notion_function_tools) ∧
    dget (add_notion_integration_tools (some i) p) "tool_choice" =
      some forcedListDatabasesChoice ∧
    get_notion_function_tools ≠ [] := by
  have hnc : dcontains p "tools" = false := by
    rw [dcontains_eq_false_iff]
    exact htools
  have hstep : notionToolsStep p = .ok (dset (dset p "tools" (.list [])) "tools"
      (.list get_notion_function_tools)) := by
    unfold notionToolsStep
    simp only [hnc, Bool.false_eq_true, if_false, dget_dset_self, List.nil_append]
  have hmsgs1 : dget (dset (dset p "tools" (.list [])) "tools"
      (.list get_notion_function_tools)) "messages" = some (.list msgs) := by
    rw [dget_dset_ne _ _ _ _ (by decide), dget_dset_ne _ _ _ _ (by decide)]
    exact hmsgs
  have hmstep : notionMessageStep (dset (dset p "tools" (.list [])) "tools"
      (.list get_notion_function_tools)) = .ok (pyLower content) := by
    unfold notionMessageStep
    rw [dgetD_of_dget _ _ _ _ hmsgs1]
    rw [pyIndexLast_of_getLast msgs (.dict mdl) hlast]
    show (pyGetDflt (PyVal.dict mdl) "content" (PyVal.str "") >>= fun c =>
        match c with
        | PyVal.str s => pure (pyLower s)
        | _ => Except.error (PyErr.attributeError "lower")) = Except.ok (pyLower content)
    rw [show pyGetDflt (.dict mdl) "content" (.str "") = .ok (.str content) from by
      simp [pyGetDflt, dgetD, hcontent]]
    rfl
  have hany : notionDbPhrases.any (fun ph => pyIn ph (pyLower content)) = true := by
    rw [List.any_eq_true]
    exact ⟨"list notion database", by simp [notionDbPhrases], hph⟩
  have hres : add_notion_integration_tools (some i) p =
      dset (dset (dset p "tools" (.list [])) "tools" (.list get_notion_function_tools))
        "tool_choice" forcedListDatabasesChoice := by
    unfold add_notion_integration_tools
    simp only [hi, Bool.not_true, Bool.false_eq_true, if_false, hstep, hmstep, hany, if_true]
  refine ⟨?_, ?_, ?_⟩
  · rw [hres, dget_dset_ne _ _ _ _ (by decide), dget_dset_self]
  · rw [hres, dget_dset_self]
  · simp [get_notion_function_tools]

theorem except_bind_ok {α β : Type} (v : α) (f : α → Except PyErr β) :
    ((Except.ok v : Except PyErr α) >>= f) = f v := rfl

theorem pyListIndex_nat (xs : List String) (n : Nat) (h : n < xs.length) :
    pyListIndex xs (.int (n : Int)) = .ok (xs.getD n "") := by
  unfold pyListIndex
  have h1 : (0 : Int) ≤ (n : Int) ∧ (n : Int) < xs.length := by
    constructor
    · exact Int.natCast_nonneg n
    · exact_mod_cast h
  simp only [h1, and_self, if_true, Int.toNat_natCast]

/-- C9 (amended): a completion request with no `tools` field, from a
caller with an active integration, whose FINAL message's content
contains "list notion databases" (the code inspects the last message of
the list, not the last user message), is forwarded with the five Notion
tools appended and `tool_choice` forced to `list_notion_databases`. -/
theorem forced_tool_choice_amended
    (user : UserCtx) (ap asp : PyDict → PyDict) (om : PyDict)
    (urls keys : List String) (configs : PyDict) (i : Integration) (fd : PyDict)
    (m : String) (tl : List PyVal) (m0d mdl mdlEntry acd : PyDict) (r : PyVal)
    (iNat : Nat) (content : String)
    (hi : i.active = true)
    (hm : dget fd "model" = some (.str m))
    (hmsgs : dget fd "messages" = some (.list (.dict m0d :: tl)))
    (hrole : dget m0d "role" = some r)
    (hlast : (PyVal.dict m0d :: tl).getLast? = some (.dict mdl))
    (hcontent : dget mdl "content" = some (.str content))
    (hph : pyIn "list notion databases" (pyLower content) = true)
    (htools : dget fd "tools" = Option.none)
    (hcat : dget om m = some (.dict mdlEntry))
    (hurl : dget mdlEntry "urlIdx" = some (.int (iNat : Int)))
    (hlen : iNat < urls.length) (hklen : iNat < keys.length)
    (hpipe : dcontains mdlEntry "pipeline" = false)
    (hacfg : api_config_for configs iNat (urls.getD iNat "") = .dict acd)
    (hpfx : pyTruthy (dgetD acd "prefix_id" .none) = false) :
    ∃ p b, generate_chat_completion_route false true user false Option.none ap asp om
        urls keys configs (some i) fd = .forward iNat (urls.getD iNat "") p b ∧
      dget p "tools" = some (.list get_notion_function_tools) ∧
      get_notion_function_tools ≠ [] ∧
      dget p "tool_choice" = some forcedListDatabasesChoice := by
  have hmd : dget (ddel fd "metadata") "model" = some (.str m) := by
    rw [dget_ddel_ne _ _ _ (by decide)]
    exact hm
  have hmsgsd : dget (ddel fd "metadata") "messages" = some (.list (.dict m0d :: tl)) := by
    rw [dget_ddel_ne _ _ _ (by decide)]
    exact hmsgs
  have htoolsd : dget (ddel fd "metadata") "tools" = Option.none := by
    rw [dget_ddel_ne _ _ _ (by decide)]
    exact htools
  rcases normalize_frame (urls.getD iNat "") (ddel fd "metadata") m0d m r tl hmd hmsgsd hrole
    with ⟨q, m0d', hnorm, hqframe, hqmsg, hm0d'⟩
  have hqtools : dget q "tools" = Option.none := by
    rw [hqframe "tools" (by decide) (by decide) (by decide)]
    exact htoolsd
  have hqlast : ∃ mdl2, (PyVal.dict m0d' :: tl).getLast? = some (.dict mdl2) ∧
      dget mdl2 "content" = some (.str content) := by
    cases tl with
    | nil =>
      refine ⟨m0d', by simp, ?_⟩
      rw [ hm0d' "content" (by decide)]
      have : mdl = m0d := by
        simp only [List.getLast?_singleton, Option.some_inj] at hlast
        cases hlast
        rfl
      rw [← this]
      exact hcontent
    | cons b bs =>
      refine ⟨mdl, ?_, hcontent⟩
      rw [List.getLast?_cons_cons] at hlast ⊢
      cases bs with
      | nil => simpa using hlast
      | cons c cs =>
        rw [List.getLast?_cons_cons] at hlast ⊢
        exact hlast
  rcases hqlast with ⟨mdl2, hqlast2, hcontent2⟩
  have hphshort : pyIn "list notion database" (pyLower content) = true := by
    have : ("list notion database" ++ "s" : String) = "list notion databases" := rfl
    apply pyIn_of_append "list notion database" "s"
    rw [this]
    exact hph
  rcases add_tools_forces i q mdl2 (PyVal.dict m0d' :: tl) content hi hqmsg hqlast2
      hcontent2 hphshort hqtools with ⟨hat, hac, hane⟩
  refine ⟨add_notion_integration_tools (some i) q,
    pyJsonDumps (.dict (add_notion_integration_tools (some i) q)), ?_, hat, hane, hac⟩
  have e1 : pyGet (.dict mdlEntry) "urlIdx" = .ok (.int (iNat : Int)) := by
    simp [pyGet, hurl]
  have e2 : pyListIndex urls (.int (iNat : Int)) = .ok (urls.getD iNat "") :=
    pyListIndex_nat urls iNat hlen
  have e3 : pyListIndex keys (.int (iNat : Int)) = .ok (keys.getD iNat "") :=
    pyListIndex_nat keys iNat hklen
  have e5 : pyGetDflt (.dict acd) "prefix_id" .none = .ok (dgetD acd "prefix_id" .none) := rfl
  have e6 : pyHas (.dict mdlEntry) "pipeline" = .ok false := by
    simp [pyHas, hpipe]
  unfold generate_chat_completion_route
  simp only [Bool.or_false, Bool.or_true, Bool.not_true, Bool.false_and,
    Bool.false_eq_true, if_false, hm, hcat, e1, except_bind_ok, e2, e3, hacfg, e5,
    hpfx, e6, hnorm, Int.toNat_natCast, Bool.false_and, hqframe, pure_bind]
  rfl

/-- Witness for C9 (amended) at a concrete gpt-4 request whose only
(hence final) message asks to list Notion databases. -/
theorem forced_tool_choice_amended_witness :
    ∃ p b, generate_chat_completion_route false true fixUser false Option.none id id
        fixCatalog ["https://a.example/v1"] ["k0"] [] (some fixIntegration)
        [("model", .str "gpt-4"),
         ("messages", .list [.dict
           [("role", .str "user"), ("content", .str "Please list notion databases")]])] =
      .forward 0 (["https://a.example/v1"].getD 0 "") p b ∧
      dget p "tools" = some (.list get_notion_function_tools) ∧
      get_notion_function_tools ≠ [] ∧
      dget p "tool_choice" = some forcedListDatabasesChoice :=
  forced_tool_choice_amended fixUser id id fixCatalog ["https://a.example/v1"] ["k0"] []
    fixIntegration
    [("model", .str "gpt-4"),
     ("messages", .list [.dict
       [("role", .str "user"), ("content", .str "Please list notion databases")]])]
    "gpt-4" []
    [("role", .str "user"), ("content", .str "Please list notion databases")]
    [("role", .str "user"), ("content", .str "Please list notion databases")]
    [("id", .str "gpt-4"), ("urlIdx", .int 0)] [] (.str "user") 0
    "Please list notion databases"
    rfl rfl rfl rfl rfl rfl rfl rfl rfl rfl (by decide) (by decide) rfl rfl rfl

/-!
### Catalog aggregation: stage lemmas (for C2 and C6)
-/

theorem wfConfigs_dget (cd : PyDict) (k : String) (v : PyVal)
    (hwfc : wfConfigs cd = true) (h : dget cd k = some v) : wfConfig v = true := by
  unfold wfConfigs at hwfc
  rw [List.all_eq_true] at hwfc
  unfold dget at h
  rcases hf : List.find? (fun p => p.1 == k) cd with _ | p
  · rw [hf] at h
    cases h
  · rw [hf] at h
    have h2 : p.2 = v := by
      simpa using h
    have hm := List.mem_of_find?_eq_some hf
    have := hwfc p hm
    rw [h2] at this
    exact this

theorem api_config_wf (cd : PyDict) (i : Nat) (u : String)
    (hwfc : wfConfigs cd = true) :
    ∃ acd, api_config_for cd i u = .dict acd ∧ wfConfig (.dict acd) = true := by
  unfold api_config_for
  rcases h1 : dget cd (toString i) with _ | v
  · simp only [dgetD]
    rcases h2 : dget cd u with _ | w
    · exact ⟨[], rfl, rfl⟩
    · simp only [Option.getD_some]
      have hw := wfConfigs_dget cd u w hwfc h2
      rcases w with _ | _ | _ | _ | _ | wd
      · simp [wfConfig] at hw
      · simp [wfConfig] at hw
      · simp [wfConfig] at hw
      · simp [wfConfig] at hw
      · simp [wfConfig] at hw
      · exact ⟨wd, rfl, hw⟩
  · have hv := wfConfigs_dget cd (toString i) v hwfc h1
    rcases v with _ | _ | _ | _ | _ | vd
    · simp [wfConfig] at hv
    · simp [wfConfig] at hv
    · simp [wfConfig] at hv
    · simp [wfConfig] at hv
    · simp [wfConfig] at hv
    · exact ⟨vd, rfl, hv⟩

theorem all_wfModel_no_str (ms : List PyVal) (s : String)
    (h : ms.all wfModel = true) : (ms.any fun x => pyEqStr x s) = false := by
  rw [Bool.eq_false_iff]
  intro hc
  rw [List.any_eq_true] at hc
  rcases hc with ⟨x, hx, hxe⟩
  rw [List.all_eq_true] at h
  have := h x hx
  cases x <;> simp_all [wfModel, pyEqStr]

theorem dupdate_quad (md : PyDict) (k1 k2 k3 k4 : String) (v1 v2 v3 v4 : PyVal) :
    dupdate md [(k1, v1), (k2, v2), (k3, v3), (k4, v4)] =
      dset (dset (dset (dset md k1 v1) k2 v2) k3 v3) k4 v4 := rfl

theorem merged_model_spec (idx : Nat) (md : PyDict) :
    ∃ md', merged_model idx (.dict md) = .dict md' ∧
      dget md' "id" = dget md "id" ∧
      dget md' "urlIdx" = some (.int idx) := by
  refine ⟨_, rfl, ?_, ?_⟩
  · rw [dupdate_quad]
    rw [dget_dset_ne _ _ _ _ (by decide), dget_dset_ne _ _ _ _ (by decide),
      dget_dset_ne _ _ _ _ (by decide), dget_dset_ne _ _ _ _ (by decide)]
  · rw [dupdate_quad]
    exact dget_dset_self _ _ _

theorem merged_model_wf (idx : Nat) (m : PyVal) (h : wfModel m = true) :
    wfModel (merged_model idx m) = true := by
  rcases m with _ | _ | _ | _ | _ | md
  · simp [wfModel] at h
  · simp [wfModel] at h
  · simp [wfModel] at h
  · simp [wfModel] at h
  · simp [wfModel] at h
  · rcases merged_model_spec idx md with ⟨md', hm, hid, _⟩
    rw [hm]
    simp only [wfModel] at h ⊢
    rw [hid]
    exact h

theorem merge_entry_ok (urls : List String) (idx : Nat) (m : PyVal)
    (h : wfModel m = true) :
    merge_entry urls idx m = .ok (some (merged_model idx m)) ∨
    merge_entry urls idx m = .ok Option.none := by
  rcases m with _ | _ | _ | _ | _ | md
  · simp [wfModel] at h
  · simp [wfModel] at h
  · simp [wfModel] at h
  · simp [wfModel] at h
  · simp [wfModel] at h
  · simp only [wfModel] at h
    rcases hid : dget md "id" with _ | v
    · rw [hid] at h
      simp at h
    · rw [hid] at h
      rcases v with _ | _ | _ | s | _ | _
      · simp at h
      · simp at h
      · simp at h
      · have hdg : dgetD md "id" PyVal.none = .str s := by
          simp [dgetD, hid]
        have hbuild :
            (do
              match PyVal.dict md with
              | .dict md => do
                let idV ← pyGet (PyVal.dict md) "id"
                let nameV := dgetD md "name" idV
                pure (some (.dict (dupdate md
                  [ ("name", nameV), ("owned_by", .str "openai"),
                    ("openai", .dict md), ("urlIdx", .int idx) ])))
              | _ => Except.error (.typeError "argument after ** must be a mapping")
              : Except PyErr (Option PyVal)) =
            .ok (some (merged_model idx (.dict md))) := by
          simp only [pyGet, hid, except_bind_ok, merged_model, hdg]
          rfl
        unfold merge_entry
        rcases hu : pyIn "api.openai.com" (urls.getD idx "") with _ | _
        · left
          simp only [hu, Bool.false_eq_true, if_false]
          exact hbuild
        · simp only [hu, if_true]
          simp only [pyGet, hid, except_bind_ok]
          rcases hd : openaiDenylist.any (fun n => pyIn n s) with _ | _
          · left
            simp only [hd, Bool.false_eq_true, if_false]
            simp only [merged_model, hdg]
            rfl
          · right
            simp only [hd, if_true]
            rfl
      · simp at h
      · simp at h

theorem merge_fold_ok (urls : List String) (idx : Nat) :
    ∀ (ms : List PyVal), ms.all wfModel = true → ∀ acc : List PyVal, acc.all wfModel = true →
      ∃ es, (ms.foldlM
        (fun acc m => do
          let e ← merge_entry urls idx m
          match e with
          | some v => pure (acc ++ [v])
          | Option.none => pure acc)
        acc : Except PyErr (List PyVal)) = .ok es ∧ es.all wfModel = true := by
  intro ms
  induction ms with
  | nil =>
    intro _ acc hacc
    exact ⟨acc, rfl, hacc⟩
  | cons m tl ih =>
    intro h acc hacc
    simp only [List.all_cons, Bool.and_eq_true] at h
    rcases merge_entry_ok urls idx m h.1 with he | he
    · rcases ih h.2 (acc ++ [merged_model idx m])
          (by
            rw [List.all_append]
            simp [hacc, merged_model_wf idx m h.1]) with ⟨es, hes, hwes⟩
      refine ⟨es, ?_, hwes⟩
      rw [List.foldlM_cons, he]
      simpa using hes
    · rcases ih h.2 acc hacc with ⟨es, hes, hwes⟩
      refine ⟨es, ?_, hwes⟩
      rw [List.foldlM_cons, he]
      simpa using hes

theorem provider_task_ok (configs : PyDict) (net : Nat → Option PyVal) (i : Nat) (u : String)
    (hwfc : wfConfigs configs = true) (hn : wfResp (net i) = true) :
    ∃ t, provider_task configs net i u = .ok t ∧ wfResp t = true := by
  unfold provider_task
  rcases hc : (!dcontains configs (toString i) && !dcontains configs u) with _ | _
  · simp only [hc, Bool.false_eq_true, if_false]
    obtain ⟨acd, hacd, hwf⟩ := api_config_wf configs i u hwfc
    rw [hacd]
    simp only [wfConfig, Bool.and_eq_true] at hwf
    rw [show pyGetDflt (.dict acd) "enable" (.bool true) =
      .ok (dgetD acd "enable" (.bool true)) from rfl]
    simp only [except_bind_ok]
    rw [show pyGetDflt (.dict acd) "model_ids" (.list []) =
      .ok (dgetD acd "model_ids" (.list [])) from rfl]
    simp only [except_bind_ok]
    rcases he : pyTruthy (dgetD acd "enable" (.bool true)) with _ | _
    · simp only [he, Bool.false_eq_true, if_false]
      exact ⟨Option.none, rfl, rfl⟩
    · simp only [he, if_true]
      rcases hmi : dget acd "model_ids" with _ | w
      · rw [show dgetD acd "model_ids" (.list []) = .list [] from by simp [dgetD, hmi]]
        exact ⟨net i, rfl, hn⟩
      · rw [hmi] at hwf
        rcases w with _ | _ | _ | _ | ws | _
        · exact absurd hwf.1 (by simp)
        · exact absurd hwf.1 (by simp)
        · exact absurd hwf.1 (by simp)
        · exact absurd hwf.1 (by simp)
        · rw [show dgetD acd "model_ids" (.list []) = .list ws from by simp [dgetD, hmi]]
          rw [show pyLen (.list ws) = .ok ws.length from rfl]
          simp only [except_bind_ok]
          rcases hl : (ws.length == 0) with _ | _
          · simp only [hl, Bool.false_eq_true, if_false]
            rw [show pyIter (.list ws) = .ok ws from rfl]
            simp only [except_bind_ok]
            refine ⟨_, rfl, ?_⟩
            simp only [wfResp, wfRespV]
            rw [show dget [("object", PyVal.str "list"),
                ("data", PyVal.list (ws.map (fun mid => PyVal.dict
                  [ ("id", mid), ("name", mid), ("owned_by", PyVal.str "openai"),
                    ("openai", PyVal.dict [("id", mid)]), ("urlIdx", PyVal.int i) ])))]
                "data" = some (PyVal.list (ws.map (fun mid => PyVal.dict
                  [ ("id", mid), ("name", mid), ("owned_by", PyVal.str "openai"),
                    ("openai", PyVal.dict [("id", mid)]), ("urlIdx", PyVal.int i) ]))) from by
              simp [dget, List.find?]]
            rw [List.all_eq_true]
            intro x hx
            rw [List.mem_map] at hx
            rcases hx with ⟨mid, hmid, hxe⟩
            have hstr := hwf.1
            rw [List.all_eq_true] at hstr
            have := hstr mid hmid
            rcases mid with _ | _ | _ | s | _ | _
            · simp at this
            · simp at this
            · simp at this
            · rw [← hxe]
              rfl
            · simp at this
            · simp at this
          · simp only [hl, if_true]
            exact ⟨net i, rfl, hn⟩
        · exact absurd hwf.1 (by simp)
  · simp only [hc, if_true]
    exact ⟨net i, rfl, hn⟩

theorem prefixModel_ok (pfx : PyVal) (m : PyVal) (h : wfModel m = true) :
    ∃ m', prefixModel pfx m = .ok m' ∧ wfModel m' = true := by
  rcases m with _ | _ | _ | _ | _ | md
  · simp [wfModel] at h
  · simp [wfModel] at h
  · simp [wfModel] at h
  · simp [wfModel] at h
  · simp [wfModel] at h
  · simp only [wfModel] at h
    rcases hid : dget md "id" with _ | v
    · rw [hid] at h
      simp at h
    · refine ⟨.dict (dset md "id" (.str (pyStrF pfx ++ "." ++ pyStrF v))), ?_, ?_⟩
      · unfold prefixModel
        simp only [pyGet, hid, except_bind_ok]
        rfl
      · simp only [wfModel, dget_dset_self]

theorem prefixModels_ok (pfx : PyVal) (ms : List PyVal) (h : ms.all wfModel = true) :
    ∃ ms', ms.mapM (prefixModel pfx) = .ok ms' ∧ ms'.all wfModel = true := by
  induction ms with
  | nil => exact ⟨[], rfl, rfl⟩
  | cons m tl ih =>
    simp only [List.all_cons, Bool.and_eq_true] at h
    rcases prefixModel_ok pfx m h.1 with ⟨m', hm, hwm⟩
    rcases ih h.2 with ⟨tl', htl, hwtl⟩
    refine ⟨m' :: tl', ?_, ?_⟩
    · rw [List.mapM_cons, hm]
      simp only [except_bind_ok]
      rw [htl]
      rfl
    · simp [hwm, hwtl]

theorem apply_prefix_ok (configs : PyDict) (urls : List String) (i : Nat) (t : Option PyVal)
    (hwfc : wfConfigs configs = true) (ht : wfResp t = true) :
    ∃ pt, apply_prefix_id configs urls i t = .ok pt ∧ wfResp pt = true := by
  unfold apply_prefix_id
  rcases t with _ | r
  · exact ⟨Option.none, rfl, rfl⟩
  · rcases htr : pyTruthy r with _ | _
    · simp only [htr, Bool.not_false, if_true]
      exact ⟨some r, rfl, ht⟩
    · simp only [htr, Bool.not_true, Bool.false_eq_true, if_false]
      obtain ⟨acd, hacd, _⟩ := api_config_wf configs i (urls.getD i "") hwfc
      rw [hacd]
      rw [show pyGetDflt (.dict acd) "prefix_id" .none =
        .ok (dgetD acd "prefix_id" .none) from rfl]
      simp only [except_bind_ok]
      rcases hp : pyTruthy (dgetD acd "prefix_id" .none) with _ | _
      · simp only [hp, Bool.false_eq_true, if_false]
        exact ⟨some r, rfl, ht⟩
      · simp only [hp, if_true]
        rcases r with _ | _ | _ | _ | xs | rd
        · simp [wfResp, wfRespV] at ht
        · simp [wfResp, wfRespV] at ht
        · simp [wfResp, wfRespV] at ht
        · simp [wfResp, wfRespV] at ht
        · dsimp only
          simp only [wfResp, wfRespV] at ht
          rcases prefixModels_ok (dgetD acd "prefix_id" .none) xs ht with ⟨xs', hxs, hwxs⟩
          rw [hxs]
          refine ⟨some (.list xs'), rfl, ?_⟩
          simpa [wfResp, wfRespV] using hwxs
        · dsimp only
          simp only [wfResp, wfRespV] at ht
          rcases hd : dget rd "data" with _ | w
          · rw [show dgetD rd "data" (.list []) = .list [] from by simp [dgetD, hd]]
            rw [show pyIter (.list []) = .ok ([] : List PyVal) from rfl]
            simp only [except_bind_ok, List.mapM_nil, pure_bind, hd]
            refine ⟨some (.dict rd), ?_, ?_⟩
            · rfl
            · simp [wfResp, wfRespV, hd]
          · rw [hd] at ht
            rcases w with _ | _ | _ | _ | ms | _
            · simp at ht
            · simp at ht
            · simp at ht
            · simp at ht
            · have htm : ms.all wfModel = true := ht
              rw [show dgetD rd "data" (.list []) = .list ms from by simp [dgetD, hd]]
              rw [show pyIter (.list ms) = .ok ms from rfl]
              simp only [except_bind_ok]
              rcases prefixModels_ok (dgetD acd "prefix_id" .none) ms htm with ⟨ms', hms, hwms⟩
              rw [hms]
              simp only [except_bind_ok, hd]
              refine ⟨some (.dict (dset rd "data" (.list ms'))), rfl, ?_⟩
              have hds : dget (dset rd "data" (.list ms')) "data" = some (.list ms') :=
                dget_dset_self _ _ _
              simp [wfResp, wfRespV, hds, hwms]
            · simp at ht

theorem extract_ok (pt : Option PyVal) (ht : wfResp pt = true) :
    ∃ dt, extract_data pt = .ok dt ∧
      (dt = Option.none ∨ ∃ ms, dt = some (.list ms) ∧ ms.all wfModel = true) := by
  unfold extract_data
  rcases pt with _ | r
  · exact ⟨Option.none, rfl, Or.inl rfl⟩
  · rcases r with _ | _ | _ | _ | xs | rd
    · simp [wfResp, wfRespV] at ht
    · simp [wfResp, wfRespV] at ht
    · simp [wfResp, wfRespV] at ht
    · simp [wfResp, wfRespV] at ht
    · simp only [wfResp, wfRespV] at ht
      rcases hne : pyTruthy (.list xs) with _ | _
      · simp only [hne, Bool.false_eq_true, if_false]
        refine ⟨some (.list xs), ?_, Or.inr ⟨xs, rfl, ht⟩⟩
        rfl
      · simp only [hne, if_true]
        rw [show pyHas (.list xs) "data" = .ok (xs.any fun x => pyEqStr x "data") from rfl]
        rw [all_wfModel_no_str xs "data" ht]
        simp only [except_bind_ok, Bool.false_eq_true, if_false]
        exact ⟨some (.list xs), rfl, Or.inr ⟨xs, rfl, ht⟩⟩
    · simp only [wfResp, wfRespV] at ht
      rcases hne : pyTruthy (.dict rd) with _ | _
      · simp only [hne, Bool.false_eq_true, if_false]
        exact ⟨Option.none, rfl, Or.inl rfl⟩
      · simp only [hne, if_true]
        rw [show pyHas (.dict rd) "data" = .ok (dcontains rd "data") from rfl]
        simp only [except_bind_ok]
        rcases hdc : dcontains rd "data" with _ | _
        · simp only [hdc, Bool.false_eq_true, if_false]
          exact ⟨Option.none, rfl, Or.inl rfl⟩
        · simp only [hdc, if_true]
          rcases (dcontains_eq_true_iff rd "data").mp hdc with ⟨w, hw⟩
          rw [hw] at ht
          rcases w with _ | _ | _ | _ | ms | _
          · simp at ht
          · simp at ht
          · simp at ht
          · simp at ht
          · rw [show pyGet (.dict rd) "data" = .ok (.list ms) from by simp [pyGet, hw]]
            simp only [except_bind_ok]
            exact ⟨some (.list ms), rfl, Or.inr ⟨ms, rfl, ht⟩⟩
          · simp at ht

theorem merge_entries_ok (urls : List String) (idx : Nat) (ms : List PyVal)
    (h : ms.all wfModel = true) :
    ∃ es, merge_entries urls idx (.list ms) = .ok es ∧ es.all wfModel = true := by
  have hne : (ms.any fun x => pyEqStr x "error") = false := all_wfModel_no_str ms "error" h
  rcases merge_fold_ok urls idx ms h [] rfl with ⟨es, hes, hwes⟩
  refine ⟨es, ?_, hwes⟩
  unfold merge_entries
  rw [show pyHas (.list ms) "error" = .ok false from by simp [pyHas, hne]]
  simp only [except_bind_ok, Bool.false_eq_true, if_false]
  rw [show pyIter (.list ms) = .ok ms from rfl]
  simpa using hes

theorem pipeline_decomp (cfg : OpenAIConfig) (net : Nat → Option PyVal)
    (hwfc : wfConfigs cfg.configs = true) (hn : ∀ i, wfResp (net i) = true) :
    ∀ (urls : List String) (k : Nat),
    ∃ (contribs : List (List PyVal)) (tasks prefixed datas : List (Option PyVal)),
      (enumFromN k urls).mapM (fun p => provider_contribution cfg p.1 p.2 (net p.1)) =
        .ok contribs ∧
      (enumFromN k urls).mapM (fun p => provider_task cfg.configs net p.1 p.2) = .ok tasks ∧
      (enumFromN k tasks).mapM (fun p => apply_prefix_id cfg.configs cfg.urls p.1 p.2) =
        .ok prefixed ∧
      prefixed.mapM extract_data = .ok datas ∧
      contribs.all (fun es => es.all wfModel) = true ∧
      ∀ acc : List PyVal,
        (enumFromN k datas).foldlM (merge_step cfg.urls) acc = .ok (acc ++ contribs.flatten) := by
  intro urls
  induction urls with
  | nil =>
    intro k
    refine ⟨[], [], [], [], rfl, rfl, rfl, rfl, rfl, fun acc => ?_⟩
    rw [show List.flatten ([] : List (List PyVal)) = [] from rfl, List.append_nil]
    rfl
  | cons u tl ih =>
    intro k
    obtain ⟨t, ht, hwt⟩ := provider_task_ok cfg.configs net k u hwfc (hn k)
    obtain ⟨pt, hpt, hwpt⟩ := apply_prefix_ok cfg.configs cfg.urls k t hwfc hwt
    obtain ⟨dt, hdt, hdtc⟩ := extract_ok pt hwpt
    obtain ⟨contribs, tasks, prefixed, datas, hco, hta, hpr, hda, hcw, hfold⟩ := ih (k + 1)
    have htask1 : provider_task cfg.configs (fun _ => net k) k u = .ok t := by
      rw [show provider_task cfg.configs (fun _ => net k) k u
            = provider_task cfg.configs net k u from rfl]
      exact ht
    have hhead : ∃ es, provider_contribution cfg k u (net k) = .ok es ∧
        es.all wfModel = true ∧
        ∀ acc : List PyVal, merge_step cfg.urls acc (k, dt) = .ok (acc ++ es) := by
      rcases hdtc with hnone | ⟨ms, hms, hmw⟩
      · refine ⟨[], ?_, rfl, fun acc => ?_⟩
        · unfold provider_contribution
          rw [htask1]
          simp only [except_bind_ok]
          rw [hpt]
          simp only [except_bind_ok]
          rw [hnone] at hdt
          rw [hdt]
          rfl
        · rw [hnone]
          show (pure acc : Except PyErr (List PyVal)) = .ok (acc ++ [])
          rw [List.append_nil]
          rfl
      · obtain ⟨es, hes, hesw⟩ := merge_entries_ok cfg.urls k ms hmw
        refine ⟨es, ?_, hesw, fun acc => ?_⟩
        · unfold provider_contribution
          rw [htask1]
          simp only [except_bind_ok]
          rw [hpt]
          simp only [except_bind_ok]
          rw [hms] at hdt
          rw [hdt]
          exact hes
        · rw [hms]
          show merge_entries cfg.urls k (.list ms) >>= (fun es2 => pure (acc ++ es2)) =
            .ok (acc ++ es)
          rw [hes]
          rfl
    obtain ⟨es, hc1, hesw, hmstep⟩ := hhead
    refine ⟨es :: contribs, t :: tasks, pt :: prefixed, dt :: datas, ?_, ?_, ?_, ?_, ?_, ?_⟩
    · show ((k, u) :: enumFromN (k + 1) tl).mapM
        (fun p => provider_contribution cfg p.1 p.2 (net p.1)) = .ok (es :: contribs)
      rw [List.mapM_cons]
      dsimp only
      rw [hc1]
      simp only [except_bind_ok]
      rw [hco]
      rfl
    · show ((k, u) :: enumFromN (k + 1) tl).mapM
        (fun p => provider_task cfg.configs net p.1 p.2) = .ok (t :: tasks)
      rw [List.mapM_cons]
      dsimp only
      rw [ht]
      simp only [except_bind_ok]
      rw [hta]
      rfl
    · show ((k, t) :: enumFromN (k + 1) tasks).mapM
        (fun p => apply_prefix_id cfg.configs cfg.urls p.1 p.2) = .ok (pt :: prefixed)
      rw [List.mapM_cons]
      dsimp only
      rw [hpt]
      simp only [except_bind_ok]
      rw [hpr]
      rfl
    · rw [List.mapM_cons]
      rw [hdt]
      simp only [except_bind_ok]
      rw [hda]
      rfl
    · simp only [List.all_cons, hesw, hcw, Bool.and_self]
    · intro acc
      show ((k, dt) :: enumFromN (k + 1) datas).foldlM (merge_step cfg.urls) acc =
        .ok (acc ++ (es :: contribs).flatten)
      rw [List.foldlM_cons]
      rw [hmstep acc]
      simp only [except_bind_ok]
      rw [hfold (acc ++ es)]
      rw [List.flatten_cons, ← List.append_assoc]

theorem build_map_fold (ms : List PyVal) : ∀ acc : PyDict, ms.all wfModel = true →
    ∃ mp, (ms.foldlM
      (fun acc m => do
        let idV ← pyGet m "id"
        match idV with
        | .str s => pure (dset acc s m)
        | _ => .error (.typeError "unhashable model id in this embedding"))
      acc : Except PyErr PyDict) = .ok mp ∧
      ∀ s : String, dget mp s =
        (match lastWith (idIs s) ms with
         | some m => some m
         | Option.none => dget acc s) := by
  induction ms with
  | nil =>
    intro acc _
    exact ⟨acc, rfl, fun s => rfl⟩
  | cons m tl ih =>
    intro acc h
    simp only [List.all_cons, Bool.and_eq_true] at h
    rcases hm : m with _ | _ | _ | _ | _ | md
    · rw [hm] at h; simp [wfModel] at h
    · rw [hm] at h; simp [wfModel] at h
    · rw [hm] at h; simp [wfModel] at h
    · rw [hm] at h; simp [wfModel] at h
    · rw [hm] at h; simp [wfModel] at h
    · rw [hm] at h
      have hid : ∃ sid, dget md "id" = some (.str sid) := by
        have h1 := h.1
        simp only [wfModel] at h1
        rcases h2 : dget md "id" with _ | v
        · rw [h2] at h1; simp at h1
        · rw [h2] at h1
          rcases v with _ | _ | _ | s | _ | _
          · simp at h1
          · simp at h1
          · simp at h1
          · exact ⟨s, rfl⟩
          · simp at h1
          · simp at h1
      obtain ⟨sid, hsid⟩ := hid
      have hstep : (do
          let idV ← pyGet (.dict md) "id"
          (match idV with
           | .str s => pure (dset acc s (.dict md))
           | _ => Except.error (.typeError "unhashable model id in this embedding")
           : Except PyErr PyDict)) = .ok (dset acc sid (.dict md)) := by
        rw [show pyGet (.dict md) "id" = .ok (.str sid) from by simp [pyGet, hsid]]
        rfl
      obtain ⟨mp, hmp, hprop⟩ := ih (dset acc sid (.dict md)) h.2
      refine ⟨mp, ?_, ?_⟩
      · rw [List.foldlM_cons, hstep]
        simpa using hmp
      · intro s
        have hp := hprop s
        show dget mp s =
          (match
            (match lastWith (idIs s) tl with
             | some y => some y
             | Option.none => if idIs s (.dict md) then some (.dict md) else Option.none) with
           | some m => some m
           | Option.none => dget acc s)
        rcases htf : lastWith (idIs s) tl with _ | m'
        · rw [htf] at hp
          have hidis : idIs s (.dict md) = (sid == s) := by
            simp [idIs, idStr, hsid]
          rcases hbs : (sid == s) with _ | _
          · rw [hidis, hbs]
            rw [hp]
            exact dget_dset_ne acc sid (.dict md) s (fun hc => by
              rw [hc] at hbs
              simp at hbs)
          · rw [hidis, hbs]
            have hseq : sid = s := by
              simpa using hbs
            rw [hp, hseq]
            exact dget_dset_self acc s (.dict md)
        · rw [htf] at hp
          exact hp

theorem get_all_models_spec (cfg : OpenAIConfig) (net : Nat → Option PyVal)
    (hwfc : wfConfigs cfg.configs = true) (hn : ∀ i, wfResp (net i) = true)
    (he : cfg.enable_openai_api = true) :
    ∃ (contribs : List (List PyVal)) (mp : PyDict),
      (pyEnumerate cfg.urls).mapM (fun p => provider_contribution cfg p.1 p.2 (net p.1)) =
        .ok contribs ∧
      get_all_models cfg net = .ok (.dict [("data", .list contribs.flatten)], some mp) ∧
      contribs.all (fun es => es.all wfModel) = true ∧
      ∀ s : String, dget mp s = lastWith (idIs s) contribs.flatten := by
  obtain ⟨contribs, tasks, prefixed, datas, hco, hta, hpr, hda, hcw, hfold⟩ :=
    pipeline_decomp cfg net hwfc hn cfg.urls 0
  have hmerged : contribs.flatten.all wfModel = true := by
    rw [List.all_eq_true]
    intro x hx
    rw [List.mem_flatten] at hx
    obtain ⟨l, hl, hxl⟩ := hx
    rw [List.all_eq_true] at hcw
    have := hcw l hl
    rw [List.all_eq_true] at this
    exact this x hxl
  obtain ⟨mp, hmp, hprop⟩ := build_map_fold contribs.flatten [] hmerged
  have hresp : get_all_models_responses cfg net = .ok prefixed := by
    unfold get_all_models_responses
    rw [he]
    simp only [Bool.not_true, Bool.false_eq_true, if_false]
    rw [show pyEnumerate cfg.urls = enumFromN 0 cfg.urls from rfl]
    rw [hta]
    simp only [except_bind_ok]
    rw [show pyEnumerate tasks = enumFromN 0 tasks from rfl]
    exact hpr
  have hmm : merge_models_lists cfg.urls datas = .ok contribs.flatten := by
    unfold merge_models_lists
    rw [show pyEnumerate datas = enumFromN 0 datas from rfl]
    have := hfold []
    rw [List.nil_append] at this
    exact this
  refine ⟨contribs, mp, hco, ?_, hcw, ?_⟩
  · unfold get_all_models
    rw [he]
    simp only [Bool.not_true, Bool.false_eq_true, if_false]
    rw [hresp]
    simp only [except_bind_ok]
    rw [hda]
    simp only [except_bind_ok]
    rw [hmm]
    simp only [except_bind_ok]
    rw [show build_openai_models_map contribs.flatten =
      (contribs.flatten.foldlM
        (fun acc m => do
          let idV ← pyGet m "id"
          match idV with
          | .str s => pure (dset acc s m)
          | _ => Except.error (.typeError "unhashable model id in this embedding"))
        [] : Except PyErr PyDict) from rfl]
    rw [hmp]
    rfl
  · intro s
    have := hprop s
    rcases hlw : lastWith (idIs s) contribs.flatten with _ | m
    · rw [hlw] at this
      rw [this]
      rfl
    · rw [hlw] at this
      exact this

/-- C2: under well-formed admin configs and well-formed (or failed)
provider replies, `get_all_models` always returns `.ok` — an empty or
partial catalog, never a raise.  The aggregate is the concatenation of
per-provider contributions, each computed from that provider's own
response alone (so one provider's failure cannot block or fail the
others), and a fetching provider whose catalog fetch errored or timed
out (its reply is `None`) contributes the empty set. -/
theorem catalog_failure_isolation (cfg : OpenAIConfig) (net : Nat → Option PyVal)
    (hwfc : wfConfigs cfg.configs = true) (hn : ∀ i, wfResp (net i) = true) :
    ∃ (v : PyVal) (mpo : Option PyDict) (contribs : List (List PyVal)),
      get_all_models cfg net = .ok (v, mpo) ∧
      (pyEnumerate cfg.urls).mapM (fun p => provider_contribution cfg p.1 p.2 (net p.1)) =
        .ok contribs ∧
      (cfg.enable_openai_api = true → v = .dict [("data", .list contribs.flatten)]) ∧
      ∀ i u, net i = Option.none → provider_uses_network cfg.configs i u = true →
        provider_contribution cfg i u (net i) = .ok [] := by
  have hiso : ∀ i u, net i = Option.none → provider_uses_network cfg.configs i u = true →
      provider_contribution cfg i u (net i) = .ok [] := by
    intro i u hni hpu
    unfold provider_uses_network at hpu
    rcases hptk : provider_task cfg.configs (fun _ => Option.none) i u with e | o
    · rw [hptk] at hpu
      exact absurd hpu Bool.false_ne_true
    · rw [hptk] at hpu
      rcases o with _ | w
      · rw [hni]
        unfold provider_contribution
        rw [hptk]
        rfl
      · exact absurd hpu Bool.false_ne_true
  rcases he : cfg.enable_openai_api with _ | _
  · obtain ⟨contribs, tasks, prefixed, datas, hco, _, _, _, _, _⟩ :=
      pipeline_decomp cfg net hwfc hn cfg.urls 0
    refine ⟨.dict [("data", .list [])], Option.none, contribs, ?_, hco, ?_, hiso⟩
    · unfold get_all_models
      rw [he]
      rfl
    · intro hcontra
      exact absurd hcontra Bool.false_ne_true
  · obtain ⟨contribs, mp, hco, hg, _, _⟩ := get_all_models_spec cfg net hwfc hn he
    exact ⟨_, _, contribs, hg, hco, fun _ => rfl, hiso⟩

theorem catalog_failure_isolation_witness :
    ∃ (v : PyVal) (mpo : Option PyDict) (contribs : List (List PyVal)),
      get_all_models fixCfg2 fixNetC2 = .ok (v, mpo) ∧
      (pyEnumerate fixCfg2.urls).mapM
        (fun p => provider_contribution fixCfg2 p.1 p.2 (fixNetC2 p.1)) = .ok contribs ∧
      (fixCfg2.enable_openai_api = true → v = .dict [("data", .list contribs.flatten)]) ∧
      ∀ i u, fixNetC2 i = Option.none → provider_uses_network fixCfg2.configs i u = true →
        provider_contribution fixCfg2 i u (fixNetC2 i) = .ok [] :=
  catalog_failure_isolation fixCfg2 fixNetC2 rfl (fun i => by
    rcases i with _ | i
    · rfl
    · rfl)

/-- C6 amended: the `OPENAI_MODELS` routing map is a dict comprehension
over the merged list, so for every id the surviving entry is the LAST
merged entry carrying that id; with two providers both reporting the
same raw id and no prefixes configured, the provider appearing last in
configured order wins the tie, not the first. -/
theorem duplicate_id_resolution_last_wins (cfg : OpenAIConfig) (net : Nat → Option PyVal)
    (hwfc : wfConfigs cfg.configs = true) (hn : ∀ i, wfResp (net i) = true)
    (he : cfg.enable_openai_api = true) (s : String) :
    ∃ (contribs : List (List PyVal)) (mp : PyDict),
      (pyEnumerate cfg.urls).mapM (fun p => provider_contribution cfg p.1 p.2 (net p.1)) =
        .ok contribs ∧
      get_all_models cfg net = .ok (.dict [("data", .list contribs.flatten)], some mp) ∧
      dget mp s = lastWith (idIs s) contribs.flatten := by
  obtain ⟨contribs, mp, hco, hg, _, hprop⟩ := get_all_models_spec cfg net hwfc hn he
  exact ⟨contribs, mp, hco, hg, hprop s⟩

theorem duplicate_id_resolution_last_wins_witness :
    ∃ (contribs : List (List PyVal)) (mp : PyDict),
      (pyEnumerate fixCfg2.urls).mapM
        (fun p => provider_contribution fixCfg2 p.1 p.2 (fixNet2 p.1)) = .ok contribs ∧
      get_all_models fixCfg2 fixNet2 = .ok (.dict [("data", .list contribs.flatten)], some mp) ∧
      dget mp "m" = lastWith (idIs "m") contribs.flatten :=
  duplicate_id_resolution_last_wins fixCfg2 fixNet2 rfl (fun _ => rfl) rfl "m"

end OpenWebUI
